import Mathlib

/-!
Verification of the OpenLLM configuration schema and binding engine
(`src/openllm/_configuration.py`).

The engine is embedded shallowly:

* Python runtime values are `Value` (with `vnothing` for the `attr.NOTHING`
  sentinel and `vnone` for Python `None`); Python dicts are association lists
  (`ValMap`) since Python dicts are ordered and the engine iterates them in
  insertion order.
* The process environment is a partial map `EnvMap` from variable names to
  strings, read through `populate_value_from_env_var` exactly as the source
  does.
* Schema construction (`LLMConfig.__init_subclass__`), the generation
  sub-schema builder (`_make_internal_generation_class`), instance
  construction (`LLMConfig.__init__`), the structuring bridge
  (`structure_llm_config`), the unstructure hooks / `model_dump`, and
  `model_construct_env` are embedded as pure functions over these types,
  with fallible paths returning `Except String`.
* Third-party collaborators (`attr`'s generated inits, `deepmerge`,
  `cattrs`) are embedded at their interface boundary with the behaviour the
  source relies on; `orjson` decoding is passed in as a parameter.
-/

namespace OpenLLM

/-- A Python runtime value, as manipulated by the configuration engine.
`vnothing` embeds the `attr.NOTHING` sentinel (marks a field with no
default); `vnone` embeds Python `None`.  Python float literals are carried
opaquely as exact numerator/denominator pairs: the engine never performs
float arithmetic, it only stores and compares these values. -/
inductive Value where
  | vnothing
  | vnone
  | vbool (b : Bool)
  | vint (n : Int)
  | vfloat (num : Int) (den : Nat)
  | vstr (s : String)
  | vmap (entries : List (String × Value))
deriving Repr

/-- A Python dict with string keys, in insertion order. -/
abbrev ValMap := List (String × Value)

/-- Test for Python `None` (the `attrs.get(k) is None` checks). -/
def Value.is_none : Value → Bool
  | Value.vnone => true
  | _ => false

/-- Test for the `attr.NOTHING` sentinel. -/
def Value.is_nothing : Value → Bool
  | Value.vnothing => true
  | _ => false

/-- The keys of a Python dict, in order. -/
def vkeys (m : ValMap) : List String := m.map Prod.fst

/-- Python dict lookup (first entry wins; a well-formed dict has no
duplicate keys). -/
def vget : ValMap → String → Option Value
  | [], _ => none
  | (k', v) :: rest, k => if k' = k then some v else vget rest k

mutual

/-- `config_merger.merge` — the `deepmerge.Merger` configured at src lines
89-96: a dict/dict pair merges key by key (`type_strategies=[(dict,
"merge")]`), every other pair of types — same non-dict types
(`fallback_strategies=["override"]`) or conflicting types
(`type_conflict_strategies=["override"]`) — is resolved by overriding with
the right-hand value.  The function is total: no type pair raises. -/
def merge_values : Value → Value → Value
  | Value.vmap b, Value.vmap n => Value.vmap (merge_entries b n)
  | _, n => n
termination_by b n => (sizeOf n, 0, sizeOf b)

/-- The deepmerge dict strategy: fold the source dict into the target,
key by key, in the source's iteration order. -/
def merge_entries : ValMap → ValMap → ValMap
  | b, [] => b
  | b, (k, v) :: rest => merge_entries (merge_one b k v) rest
termination_by b n => (sizeOf n, 2, sizeOf b)

/-- Merge one source key/value pair into the target dict: an existing entry
is replaced by the (recursive) merge of the two values, a missing key is
appended. -/
def merge_one : ValMap → String → Value → ValMap
  | [], k, v => [(k, v)]
  | (k', v') :: bs, k, v =>
      if k' = k then (k', merge_values v' v) :: bs
      else (k', v') :: merge_one bs k v
termination_by b _k v => (sizeOf v, 1, sizeOf b)

end

/-- Is this Python value a dict? -/
def Value.is_map : Value → Bool
  | Value.vmap _ => true
  | _ => false

/-- Python's `str.upper()`, embedded per character (the engine only upcases
ASCII identifiers). -/
def pyUpper (s : String) : String := String.mk (s.data.map Char.toUpper)

/-- src lines 885-886 (`field_env_key` inside `__init_subclass__`): the
environment variable name derived for a primary field. -/
def field_env_key (model_name : String) (key : String) : String :=
  "OPENLLM_" ++ pyUpper model_name ++ "_" ++ pyUpper key

/-- src line 577 (inside `_evolve_with_base_default`): the environment
variable name derived for a generation (sub-schema) field. -/
def generation_field_env_key (model_name : String) (name : String) : String :=
  "OPENLLM_" ++ pyUpper model_name ++ "_GENERATION_" ++ pyUpper name

/-- The declared (annotated) type of a schema field, as far as the binding
engine interprets one. -/
inductive PyType where
  | pyint
  | pyfloat
  | pybool
  | pystr
  | pyother
deriving Repr, DecidableEq

/-- Modelled from the spec: `dantic.Field` (openllm/utils/dantic.py, which is
not under src/) gives a field declared without an explicit default the
default Python `None` — the spec §4.1 "default sentinel" — which the
unstructure hook (src line 412) and the CLI projector (src line 151) both
test alongside `attr.NOTHING`. -/
def dantic_no_default : Value := Value.vnone

/-- One attrs attribute of an `LLMConfig` subclass, as `__init_subclass__`
assembles them.  `default = vnothing` embeds `attr.NOTHING` (a mandatory
field); `env` is the `metadata["env"]` slot.  Alias and description
metadata are not modelled: no claim depends on them. -/
structure FieldSpec where
  name : String
  ty : PyType := PyType.pyother
  default : Value := Value.vnothing
  kw_only : Bool := false
  init : Bool := true
  env : String := ""
deriving Repr

/-- The process environment: a partial map from variable names to strings. -/
abbrev EnvMap := String → Option String

/-- src lines 417-423 (`_populate_value_from_env_var`):
`os.environ.get(transform(key), fallback)`.  The environment only ever holds
strings, so a present variable comes back as a Python string; an absent one
falls through to `fallback` (which at the `__init_subclass__` call site may
be the `attr.NOTHING` sentinel). -/
def populate_value_from_env_var (key : String)
    (transform : Option (String → String)) (fallback : Value)
    (env : EnvMap) : Value :=
  let k := match transform with
           | some t => t key
           | none => key
  match env k with
  | some s => Value.vstr s
  | none => fallback

/-- Decimal digits to a number (the empty list and non-digits fail). -/
def parse_nat_chars (cs : List Char) : Option Nat :=
  if cs ≠ [] ∧ cs.all Char.isDigit then
    some (cs.foldl (fun acc c => acc * 10 + (c.toNat - 48)) 0)
  else none

/-- Modelled from the spec: §4.2 — an environment-variable value is "read
once, as a string, interpreted per declared type".  The string-to-type
interpretation lives in `dantic.Field` (openllm/utils/dantic.py, not under
src/).  An integer literal, with optional sign. -/
def py_int_of_string (s : String) : Option Int :=
  match s.data with
  | '-' :: rest => (parse_nat_chars rest).map (fun n => -(n : Int))
  | cs => (parse_nat_chars cs).map (fun n => (n : Int))

/-- A decimal literal without sign: an integer part and an optional
fractional part. -/
def parse_decimal_core (sign : Int) (cs : List Char) : Option Value :=
  match cs.drop ((cs.takeWhile (fun c => c ≠ '.')).length) with
  | [] => (parse_nat_chars (cs.takeWhile (fun c => c ≠ '.'))).map
      (fun n => Value.vfloat (sign * n) 1)
  | _ :: frac =>
      match parse_nat_chars (cs.takeWhile (fun c => c ≠ '.')),
          parse_nat_chars frac with
      | some n, some f =>
          some (Value.vfloat (sign * (n * 10 ^ frac.length + f))
            (10 ^ frac.length))
      | _, _ => none

/-- Modelled from the spec: §4.2 — a float literal, with optional sign and
fractional part, parsed exactly. -/
def parse_decimal (s : String) : Option Value :=
  match s.data with
  | '-' :: rest => parse_decimal_core (-1) rest
  | cs => parse_decimal_core 1 cs

/-- Modelled from the spec: §4.2 — the `dantic.Field` converter interprets an
environment-sourced string per the field's declared type; an already-typed
value passes through unchanged. -/
def dantic_convert (ty : PyType) (v : Value) : Value :=
  match ty, v with
  | PyType.pyint, Value.vstr s => (py_int_of_string s).elim v Value.vint
  | PyType.pyfloat, Value.vstr s => (parse_decimal s).getD v
  | PyType.pybool, Value.vstr s =>
      if s = "True" ∨ s = "true" ∨ s = "1" then Value.vbool true
      else if s = "False" ∨ s = "false" ∨ s = "0" then Value.vbool false
      else v
  | _, v => v

/-- src lines 936-945, the loop body: walking the ordered attribute list,
remember whether a defaulted attribute was seen (`had_default`) and fail on
the first mandatory (`attr.NOTHING`-defaulted) attribute after one. -/
def field_order_loop : Bool → List FieldSpec → Except String Unit
  | _, [] => Except.ok ()
  | had_default, a :: rest =>
      if had_default && a.default.is_nothing then
        Except.error ("No mandatory attributes allowed after an attribute with a default value or factory.  Attribute in question: " ++ a.name)
      else field_order_loop (had_default || !a.default.is_nothing) rest

/-- src lines 936-945: the mandatory/default ordering check over the final
attribute list, restricted — as the source's generator expression is — to
attributes that take part in `__init__` and are not keyword-only. -/
def check_field_order (attrs : List FieldSpec) : Except String Unit :=
  field_order_loop false (attrs.filter (fun a => a.init && !a.kw_only))

/-- An ordering violation in an attribute list: some mandatory (no-default)
attribute appears strictly after some defaulted attribute. -/
def order_violation (L : List FieldSpec) : Prop :=
  ∃ (i j : Fin L.length), i < j
    ∧ (L.get i).default.is_nothing = false
    ∧ (L.get j).default.is_nothing = true

/-- One attribute of the (base or derived) generation sub-schema class.
CLI metadata (bounds, descriptions, declared types) is not modelled: no
claim depends on it. -/
structure GenField where
  name : String
  default : Value := dantic_no_default
  env : String := ""
deriving Repr

/-- src lines 160-391: the fields of the base `GenerationConfig` schema, in
declaration order, with their declared defaults (fields declared through
`dantic.Field` without an explicit default get `dantic_no_default`). -/
def generation_config_fields : List GenField :=
  [ { name := "max_new_tokens", default := Value.vint 20 },
    { name := "min_length", default := Value.vint 0 },
    { name := "min_new_tokens" },
    { name := "early_stopping", default := Value.vbool false },
    { name := "max_time" },
    { name := "num_beams", default := Value.vint 1 },
    { name := "num_beam_groups", default := Value.vint 1 },
    { name := "penalty_alpha" },
    { name := "use_cache", default := Value.vbool true },
    { name := "temperature", default := Value.vfloat 1 1 },
    { name := "top_k", default := Value.vint 50 },
    { name := "top_p", default := Value.vfloat 1 1 },
    { name := "typical_p", default := Value.vfloat 1 1 },
    { name := "epsilon_cutoff", default := Value.vfloat 0 1 },
    { name := "eta_cutoff", default := Value.vfloat 0 1 },
    { name := "diversity_penalty", default := Value.vfloat 0 1 },
    { name := "repetition_penalty", default := Value.vfloat 1 1 },
    { name := "encoder_repetition_penalty", default := Value.vfloat 1 1 },
    { name := "length_penalty", default := Value.vfloat 1 1 },
    { name := "no_repeat_ngram_size", default := Value.vint 0 },
    { name := "bad_words_ids" },
    { name := "force_words_ids" },
    { name := "renormalize_logits", default := Value.vbool false },
    { name := "constraints" },
    { name := "forced_bos_token_id" },
    { name := "forced_eos_token_id" },
    { name := "remove_invalid_values", default := Value.vbool false },
    { name := "exponential_decay_length_penalty" },
    { name := "suppress_tokens" },
    { name := "begin_suppress_tokens" },
    { name := "forced_decoder_ids" },
    { name := "num_return_sequences", default := Value.vint 1 },
    { name := "output_attentions", default := Value.vbool false },
    { name := "output_hidden_states", default := Value.vbool false },
    { name := "output_scores", default := Value.vbool false },
    { name := "pad_token_id" },
    { name := "bos_token_id" },
    { name := "eos_token_id" },
    { name := "encoder_no_repeat_ngram_size", default := Value.vint 0 },
    { name := "decoder_start_token_id" } ]

/-- src lines 572-583 (`_evolve_with_base_default`): evolve one base
generation field for the owning schema: attach the derived env key as
metadata and compute the new default.  When the owning schema has its own
`GenerationConfig` override block, the override value wins, falling back to
the environment value `_from_env` (whose own fallback is the base default);
when there is no override block the base default is kept unchanged and the
computed `_from_env` is discarded. -/
def evolve_with_base_default (model_name : String) (has_gen_class : Bool)
    (gen_override : ValMap) (env : EnvMap) (f : GenField) : GenField :=
  let e := generation_field_env_key model_name f.name
  let _from_env := populate_value_from_env_var e none f.default env
  let default_value :=
    if has_gen_class = false then f.default
    else (vget gen_override f.name).getD _from_env
  { f with default := default_value, env := e }

/-- src lines 569-599 (`_make_internal_generation_class`): build the derived
generation class for the owning schema by evolving every base
`GenerationConfig` field (the derived class adds no field of its own:
`attr.make_class(..., [], bases=(GenerationConfig,), ...)`). -/
def make_internal_generation_class (model_name : String) (has_gen_class : Bool)
    (gen_override : ValMap) (env : EnvMap) : List GenField :=
  generation_config_fields.map
    (evolve_with_base_default model_name has_gen_class gen_override env)

/-- What `__init_subclass__` works from for one subclass: the normalized
model name (from `__config__` via `_gen_default_model_config`), the
subclass's own annotated fields in declaration order, the attributes
collected from base classes by `_collect_base_attrs` (most-derived
declaration first, already deduplicated), and the optional inline
`GenerationConfig` override block (its class attributes as a dict). -/
structure SchemaInput where
  model_name : String
  own_fields : List FieldSpec
  base_fields : List FieldSpec := []
  has_gen_class : Bool := false
  gen_override : ValMap := []

/-- The schema metadata `__init_subclass__` leaves on the class. -/
structure BuiltSchema where
  model_name : String
  /-- `__openllm_attrs__` (src line 928): the subclass's own attribute
  names only. -/
  openllm_attrs : List String
  /-- `__attrs_attrs__` (src line 962): own attributes followed by base
  attributes, with env-resolved defaults. -/
  attrs : List FieldSpec
  /-- the fields of `generation_class` (src line 982). -/
  gen_fields : List GenField
  /-- `__openllm_accepted_keys__` (src line 986). -/
  accepted_keys : List String
deriving Repr

/-- Attach the derived env-key metadata to an own attribute (src lines
896-900 and 916-919: every own attribute gets `metadata["env"]`). -/
def add_env_metadata (model_name : String) (a : FieldSpec) : FieldSpec :=
  { a with env := field_env_key model_name a.name }

/-- src line 952: re-resolve an attribute's default from the environment at
schema-build time — the variable named by this schema's `field_env_key`
wins over the statically declared default (which may be `attr.NOTHING`). -/
def resolve_default_from_env (model_name : String) (env : EnvMap)
    (a : FieldSpec) : FieldSpec :=
  { a with
    default := populate_value_from_env_var a.name
      (some (field_env_key model_name)) a.default env }

/-- src lines 874-986 (`__init_subclass__`), the parts the claims are about:
assemble own attributes (each born with env metadata) before collected base
attributes, run the field-order check, resolve every attribute's default
from the environment, build the derived generation class, and record
`__openllm_attrs__` (own names only) plus the accepted-key set.  Alias
bookkeeping (line 950) and the generated `__attrs_init__`/`__repr__`
machinery are not modelled beyond `attrs_init` below. -/
def init_subclass (inp : SchemaInput) (env : EnvMap) :
    Except String BuiltSchema :=
  match check_field_order
      (inp.own_fields.map (add_env_metadata inp.model_name)
        ++ inp.base_fields) with
  | Except.error e => Except.error e
  | Except.ok _ =>
      Except.ok {
        model_name := inp.model_name,
        openllm_attrs := inp.own_fields.map FieldSpec.name,
        attrs := (inp.own_fields.map (add_env_metadata inp.model_name)
            ++ inp.base_fields).map (resolve_default_from_env inp.model_name env),
        gen_fields := make_internal_generation_class inp.model_name
          inp.has_gen_class inp.gen_override env,
        accepted_keys := inp.own_fields.map FieldSpec.name
          ++ (make_internal_generation_class inp.model_name
              inp.has_gen_class inp.gen_override env).map GenField.name }

/-- A two-field schema whose second non-keyword-only field is mandatory
while the first carries a default: an invalid field order. -/
def bad_order_input : SchemaInput :=
  { model_name := "example",
    own_fields :=
      [ { name := "a", ty := PyType.pyint, default := Value.vint 1 },
        { name := "b", ty := PyType.pyint } ] }

/-- The attrs-generated `__init__` of the derived generation class
(`self.generation_class(**generation_config)`, src line 1025): every keyword
must name a field (otherwise Python raises `TypeError`), every mandatory
field must receive a value, and each field takes the given value, falling
back to its evolved default. -/
def init_generation (gen_fields : List GenField) (gc : ValMap) :
    Except String ValMap :=
  if gc.all (fun kv => gen_fields.any (fun f => f.name == kv.1)) then
    if gen_fields.all
        (fun f => !(f.default.is_nothing && (vget gc f.name).isNone)) then
      Except.ok (gen_fields.map (fun f => (f.name, (vget gc f.name).getD f.default)))
    else Except.error "TypeError: missing required argument"
  else Except.error "TypeError: unexpected keyword argument"

/-- The (field name, default) table of a generation class. -/
def gen_defaults (gen_fields : List GenField) : ValMap :=
  gen_fields.map (fun f => (f.name, f.default))

/-- The environment of the C3 counterexample: only the derived generation
temperature variable is set. -/
def c3_env : EnvMap :=
  fun k => if k = "OPENLLM_EXAMPLE_GENERATION_TEMPERATURE" then some "0.5"
           else none

/-- A constructed configuration instance: `__openllm_extras__`, the built
`generation_config` sub-instance (as its field-value table), the primary
attribute values assigned by `__attrs_init__`, and the generation keys the
constructor warned about (the `logger.warning` at src lines 1013-1019 — the
constructor's one observable side effect — fires iff this list is
nonempty). -/
structure LLMInstance where
  openllm_extras : ValMap
  generation_config : ValMap
  primary : ValMap
  warned_generation_keys : List String := []
deriving Repr

/-- The generation-field name table of a built schema
(`attr.fields_dict(self.generation_class)` keys). -/
def gen_names (S : BuiltSchema) : List String :=
  S.gen_fields.map GenField.name

/-- The attrs-generated `__attrs_init__` of the subclass (built at src lines
963-979, called at line 1044), combined with the spec-modelled
`dantic_convert`: each `init` attribute takes the explicit keyword value if
present, else its build-time default, interpreted per its declared type; a
keyword that names no `init` attribute, or a missing value for a mandatory
(`attr.NOTHING`-defaulted) `init` attribute, raises `TypeError`. -/
def attrs_init (fields : List FieldSpec) (vals : ValMap) :
    Except String ValMap :=
  if vals.all (fun kv => fields.any (fun f => f.name == kv.1 && f.init)) then
    if fields.all (fun f =>
        !(f.init && f.default.is_nothing && (vget vals f.name).isNone)) then
      Except.ok (fields.map (fun f =>
        (f.name,
          dantic_convert f.ty
            ((if f.init then vget vals f.name else none).getD f.default))))
    else Except.error "TypeError: missing required argument"
  else Except.error "TypeError: unexpected keyword argument"

/-- src lines 998-1001: `__openllm_extras__` — the caller-supplied extras
mapping (or `{}`), deep-merged with the keywords not in
`__openllm_accepted_keys__`. -/
def init_extras (S : BuiltSchema) (eo : Option ValMap) (m : ValMap) : ValMap :=
  merge_entries (eo.getD [])
    (m.filter (fun kv => !(decide (kv.1 ∈ S.accepted_keys))))

/-- src lines 1003-1006: the keywords kept after dropping those that went to
extras and those holding `None`. -/
def init_attrs1 (S : BuiltSchema) (eo : Option ValMap) (m : ValMap) : ValMap :=
  m.filter (fun kv =>
    !(decide (kv.1 ∈ vkeys (init_extras S eo m))) && !kv.2.is_none)

/-- src line 1010: with no explicit `generation_config`, the generation
mapping collected from generation-field keywords. -/
def init_gc_implicit (S : BuiltSchema) (eo : Option ValMap) (m : ValMap) :
    ValMap :=
  (init_attrs1 S eo m).filter (fun kv => decide (kv.1 ∈ gen_names S))

/-- src line 1012: with an explicit `generation_config`, the colliding
top-level generation-field keywords (warned about, then dropped). -/
def init_generation_keys (S : BuiltSchema) (eo : Option ValMap) (m : ValMap) :
    List String :=
  ((init_attrs1 S eo m).map Prod.fst).filter (fun k => decide (k ∈ gen_names S))

/-- src lines 1020-1023: the keywords kept after dropping the colliding
generation keys. -/
def init_attrs2_explicit (S : BuiltSchema) (eo : Option ValMap) (m : ValMap) :
    ValMap :=
  (init_attrs1 S eo m).filter (fun kv =>
    !(decide (kv.1 ∈ init_generation_keys S eo m)))

/-- src lines 988-1044 (`LLMConfig.__init__`):
(1) merge the keywords not in `__openllm_accepted_keys__` into
`__openllm_extras__` (lines 998-1001); (2) drop the keywords that went to
extras or hold `None` (lines 1003-1006); (3) without an explicit
`generation_config`, collect generation-field keywords into one (line 1010);
with an explicit one, warn about colliding top-level generation keywords and
drop them (lines 1012-1023); (4) build the generation sub-instance
(line 1025); (5) drop keywords consumed by `generation_config` (lines
1039-1041) and hand the rest to `__attrs_init__` (line 1044).  The
`__repr__` regeneration at lines 1026-1037 is presentation-only and not
modelled. -/
def llmconfig_init (S : BuiltSchema) (generation_config : Option ValMap)
    (openllm_extras : Option ValMap) (attrs : ValMap) :
    Except String LLMInstance :=
  match generation_config with
  | none =>
      (init_generation S.gen_fields (init_gc_implicit S openllm_extras attrs)).bind
        (fun gen =>
          (attrs_init S.attrs
            ((init_attrs1 S openllm_extras attrs).filter (fun kv =>
              !(decide (kv.1 ∈ vkeys (init_gc_implicit S openllm_extras attrs)))))).bind
            (fun prim =>
              Except.ok
                { openllm_extras := init_extras S openllm_extras attrs,
                  generation_config := gen, primary := prim,
                  warned_generation_keys := [] }))
  | some gc0 =>
      (init_generation S.gen_fields gc0).bind (fun gen =>
        (attrs_init S.attrs
          ((init_attrs2_explicit S openllm_extras attrs).filter (fun kv =>
            !(decide (kv.1 ∈ vkeys gc0))))).bind
          (fun prim =>
            Except.ok
              { openllm_extras := init_extras S openllm_extras attrs,
                generation_config := gen, primary := prim,
                warned_generation_keys :=
                  init_generation_keys S openllm_extras attrs }))

/-- An empty process environment. -/
def no_env : EnvMap := fun _ => none

/-- A primary field as a parent subclass (model name `parent`) would have
built it: defaulted, with the parent's env metadata.  A further subclass
inherits it through `_collect_base_attrs`. -/
def inherited_base_field : FieldSpec :=
  { name := "p", ty := PyType.pyint, default := Value.vint 1,
    env := "OPENLLM_PARENT_P" }

/-- A subclass of a subclass: no own fields, one inherited primary field. -/
def inherited_input : SchemaInput :=
  { model_name := "child", own_fields := [],
    base_fields := [inherited_base_field] }

/-- The schema the engine builds for `inherited_input` under an empty
environment.  Note `accepted_keys` misses the inherited field `p`:
`__openllm_attrs__` (src line 928) records own attributes only. -/
def inherited_schema : BuiltSchema :=
  { model_name := "child", openllm_attrs := [],
    attrs := [inherited_base_field],
    gen_fields := make_internal_generation_class "child" false [] no_env,
    accepted_keys :=
      (make_internal_generation_class "child" false [] no_env).map GenField.name }

/-- The environment of the C1 scenario: `OPENLLM_EXAMPLE_MAX_TOKENS=50`. -/
def env50 : EnvMap :=
  fun k => if k = "OPENLLM_EXAMPLE_MAX_TOKENS" then some "50" else none

/-- The spec's `Example` schema: model name `example`, one primary int field
`max_tokens` with declared default 20. -/
def example_field : FieldSpec :=
  { name := "max_tokens", ty := PyType.pyint, default := Value.vint 20 }

def example_input : SchemaInput :=
  { model_name := "example", own_fields := [example_field] }

/-- The schema the engine builds for `example_input` under `env50`: the
schema-build-time default of `max_tokens` is the raw environment string. -/
def example_schema : BuiltSchema :=
  { model_name := "example", openllm_attrs := ["max_tokens"],
    attrs := [ { name := "max_tokens", ty := PyType.pyint,
                 default := Value.vstr "50",
                 env := "OPENLLM_EXAMPLE_MAX_TOKENS" } ],
    gen_fields := make_internal_generation_class "example" false [] env50,
    accepted_keys := "max_tokens"
      :: (make_internal_generation_class "example" false [] env50).map GenField.name }

def example_inst0 : LLMInstance :=
  { openllm_extras := [],
    generation_config := gen_defaults example_schema.gen_fields,
    primary := [("max_tokens", Value.vint 50)] }

def example_inst5 : LLMInstance :=
  { openllm_extras := [],
    generation_config := gen_defaults example_schema.gen_fields,
    primary := [("max_tokens", Value.vint 5)] }

/-- The C6 scenario instance: `Example` schema constructed with
`generation_config={"temperature": 0.9}` and top-level `temperature=0.1`. -/
def c6_inst : LLMInstance :=
  { openllm_extras := [],
    generation_config := example_schema.gen_fields.map
      (fun f => (f.name, (vget [("temperature", Value.vfloat 9 10)] f.name).getD f.default)),
    primary := [("max_tokens", Value.vint 50)],
    warned_generation_keys := ["temperature"] }

/-- The primary-field name table of a built schema. -/
def primary_names (S : BuiltSchema) : List String :=
  S.attrs.map FieldSpec.name

/-- The C4 scenario instance: `Example` constructed with
`{temperature: 0.2, foo: "bar"}`. -/
def c4_inst : LLMInstance :=
  { openllm_extras := [("foo", Value.vstr "bar")],
    generation_config := example_schema.gen_fields.map
      (fun f => (f.name, (vget [("temperature", Value.vfloat 1 5)] f.name).getD f.default)),
    primary := [("max_tokens", Value.vint 50)] }

/-- Python dict `d[k] = v`: replace in place or append. -/
def dict_set (m : ValMap) (k : String) (v : Value) : ValMap :=
  if k ∈ vkeys m then m.map (fun kv => if kv.1 = k then (k, v) else kv)
  else m ++ [(k, v)]

/-- Python `d.update(n)`. -/
def dict_update (m n : ValMap) : ValMap :=
  n.foldl (fun acc kv => dict_set acc kv.1 kv.2) m

/-- src lines 407-414: the cattrs unstructure hook for `GenerationConfig`
subclasses — `make_dict_unstructure_fn` with `override(omit=True)` for every
field whose class default is `None` or `attr.NOTHING`: those fields are
always omitted from the unstructured dict, the rest map to their current
values. -/
def unstructure_generation (gen_fields : List GenField) (g : ValMap) : ValMap :=
  (gen_fields.filter (fun f =>
      !(f.default.is_none || f.default.is_nothing))).map
    (fun f => (f.name, (vget g f.name).getD f.default))

/-- src lines 1186-1189: the cattrs unstructure hook for `LLMConfig`
subclasses — `make_dict_unstructure_fn(cls, ..., _cattrs_omit_if_default=False)`
over the class's attrs fields, which are exactly the primary attributes:
`generation_config` and `__openllm_extras__` are not attrs fields and are
dropped. -/
def unstructure_llmconfig (inst : LLMInstance) : ValMap := inst.primary

/-- src lines 1074-1081 (`model_dump`): the unstructured primary fields, with
the unstructured generation config nested under `"generation_config"`
(default) or merged into the top level (`flatten=True`). -/
def model_dump (S : BuiltSchema) (inst : LLMInstance) (flatten : Bool) :
    ValMap :=
  if flatten = false then
    dict_set (unstructure_llmconfig inst) "generation_config"
      (Value.vmap (unstructure_generation S.gen_fields inst.generation_config))
  else
    dict_update (unstructure_llmconfig inst)
      (unstructure_generation S.gen_fields inst.generation_config)

/-- src line 1205: the keys of the input that name class (own) attributes. -/
def structure_cls_attrs (S : BuiltSchema) (d : ValMap) : ValMap :=
  d.filter (fun kv => decide (kv.1 ∈ S.openllm_attrs))

/-- src line 1208: `data.pop("generation_config")`. -/
def structure_pop (d : ValMap) : ValMap :=
  d.filter (fun kv => !(decide (kv.1 = "generation_config")))

/-- src line 1211: the provided `generation_config` dict, deep-merged with
the top-level keys naming generation fields (the top level, being the merge
source, wins on conflicts). -/
def structure_gc_explicit (S : BuiltSchema) (gm : ValMap) (d : ValMap) :
    ValMap :=
  merge_entries gm
    ((structure_pop d).filter (fun kv => decide (kv.1 ∈ gen_names S)))

/-- src line 1213: with no `generation_config` key, the top-level keys
naming generation fields. -/
def structure_gc_implicit (S : BuiltSchema) (d : ValMap) : ValMap :=
  d.filter (fun kv => decide (kv.1 ∈ gen_names S))

/-- src lines 1192-1218 (`structure_llm_config`): structure a dict into a
config instance.  A non-dict input, or a non-dict `generation_config` value,
raises; otherwise the keys naming class attributes become constructor
keywords, the sub-schema override is the (merged) explicit
`generation_config` or the collected top-level generation keys, and
everything else is passed as `__openllm_extras__`. -/
def structure_llm_config (S : BuiltSchema) (data : Value) :
    Except String LLMInstance :=
  match data with
  | Value.vmap d =>
      match vget d "generation_config" with
      | some (Value.vmap gm) =>
          llmconfig_init S (some (structure_gc_explicit S gm d))
            (some ((structure_pop d).filter (fun kv =>
              !(decide (kv.1 ∈ vkeys (structure_cls_attrs S d)
                  ++ vkeys (structure_gc_explicit S gm d))))))
            (structure_cls_attrs S d)
      | some _ => Except.error "Expected a dictionary"
      | none =>
          llmconfig_init S (some (structure_gc_implicit S d))
            (some (d.filter (fun kv =>
              !(decide (kv.1 ∈ vkeys (structure_cls_attrs S d)
                  ++ vkeys (structure_gc_implicit S d))))))
            (structure_cls_attrs S d)
  | _ => Except.error "Expected a dictionary"

/-- `attr.evolve` on a generation instance (src line 1114):
`cls(**current values, **changes)` through the generation class's
attrs-generated init — every change must name a field. -/
def evolve_generation (gen_fields : List GenField) (g : ValMap)
    (changes : ValMap) : Except String ValMap :=
  if changes.all (fun kv => gen_fields.any (fun f => f.name == kv.1)) then
    Except.ok (gen_fields.map (fun f =>
      (f.name,
        ((vget changes f.name).orElse (fun _ => vget g f.name)).getD f.default)))
  else Except.error "TypeError: unexpected keyword argument"

/-- src lines 1106-1115, after a base instance `ncls` is obtained:
drop the keywords consumed by the generation mapping (line 1113), evolve
`ncls.generation_config` (line 1114 — the evolved sub-instance is then
discarded because `attr.evolve(ncls, **attrs)` at line 1115 rebuilds the
instance through `LLMConfig.__init__` from the primary attrs-field values
plus the remaining keywords, and neither `generation_config` nor
`__openllm_extras__` is an attrs field; the line-1114 `TypeError` on unknown
keys still propagates). -/
def mce_core (S : BuiltSchema) (ncls : LLMInstance) (gc : ValMap)
    (attrs1 : ValMap) : Except String LLMInstance :=
  (evolve_generation S.gen_fields ncls.generation_config gc).bind
    (fun _evolved =>
      llmconfig_init S none none
        (dict_update ncls.primary
          (attrs1.filter (fun kv => !(decide (kv.1 ∈ vkeys gc))))))

/-- src lines 1106-1113: take the explicit `generation_config` keyword (it
must be a dict) or collect the generation-field keywords. -/
def mce_rest (S : BuiltSchema) (ncls : LLMInstance) (attrs0 : ValMap) :
    Except String LLMInstance :=
  match vget attrs0 "generation_config" with
  | some (Value.vmap gm) =>
      mce_core S ncls gm
        (attrs0.filter (fun kv => !(decide (kv.1 = "generation_config"))))
  | some _ => Except.error "Expected a dictionary"
  | none =>
      mce_core S ncls
        (attrs0.filter (fun kv => decide (kv.1 ∈ gen_names S))) attrs0

/-- src lines 1086-1115 (`model_construct_env`): drop `None`-valued keywords
(line 1091), read the whole-config JSON override variable
`OPENLLM_<M>_CONFIG` (the name is the `ModelEnv.model_config` contract of
spec §6; `ModelEnv` lives in openllm/utils, not under src/) — if set, its
decoded value is structured into the base instance, else the base instance
is built with no arguments — then apply the remaining keywords.  `decode`
is the external JSON decoder (`orjson.loads`, an out-of-scope collaborator);
a `none` result models invalid JSON and raises. -/
def model_construct_env (S : BuiltSchema) (decode : String → Option Value)
    (env : EnvMap) (attrs : ValMap) : Except String LLMInstance :=
  match env ("OPENLLM_" ++ pyUpper S.model_name ++ "_CONFIG") with
  | some s =>
      match decode s with
      | none =>
          Except.error "Failed to parse the config env var as valid JSON string."
      | some v =>
          (structure_llm_config S v).bind (fun ncls =>
            mce_rest S ncls (attrs.filter (fun kv => !kv.2.is_none)))
  | none =>
      (llmconfig_init S none none []).bind (fun ncls =>
        mce_rest S ncls (attrs.filter (fun kv => !kv.2.is_none)))

/-- The input of the C8 counterexample: an explicit `generation_config`
alongside a top-level generation key. -/
def c8_data : ValMap :=
  [("generation_config", Value.vmap [("temperature", Value.vfloat 9 10)]),
   ("temperature", Value.vfloat 1 10)]

/-- Looking up a key after merging in a single pair: the merged pair's key
holds the merge of the old value (if any) with the new one; other keys are
untouched. -/
theorem vget_merge_one (bm : ValMap) (k0 : String) (v0 : Value) (k : String) :
    vget (merge_one bm k0 v0) k =
      if k = k0 then
        some (match vget bm k0 with
              | some bv => merge_values bv v0
              | none => v0)
      else vget bm k := by
  induction bm with
  | nil => by_cases h : k = k0 <;> simp [merge_one, vget, h, Ne.symm]
  | cons hd tl ih =>
      obtain ⟨k', v'⟩ := hd
      by_cases hk : k' = k0
      · subst hk
        by_cases h : k = k'
        · subst h
          simp [merge_one, vget]
        · simp [merge_one, vget, h, Ne.symm h]
      · by_cases h : k = k'
        · subst h
          simp [merge_one, vget, hk, Ne.symm hk, ih]
        · simp [merge_one, vget, hk, h, ih, Ne.symm h]

/-- A key absent from a dict looks up to `none`. -/
theorem vget_eq_none_of_not_mem {m : ValMap} {k : String} (h : k ∉ vkeys m) :
    vget m k = none := by
  induction m with
  | nil => rfl
  | cons hd tl ih =>
      obtain ⟨k0, v0⟩ := hd
      simp only [vkeys, List.map_cons, List.mem_cons] at h
      push_neg at h
      simp [vget, Ne.symm h.1, ih (by simpa [vkeys] using h.2)]

/-- Full characterization of the deepmerge dict strategy on a source dict
without duplicate keys: a key held by both sides maps to the recursive merge
of the two values, a key held by one side keeps that side's value, and no
key of either side is dropped. -/
theorem vget_merge_entries (bm nm : ValMap) (k : String)
    (h : (vkeys nm).Nodup) :
    vget (merge_entries bm nm) k =
      match vget bm k, vget nm k with
      | some bv, some nv => some (merge_values bv nv)
      | none, some nv => some nv
      | some bv, none => some bv
      | none, none => none := by
  induction nm generalizing bm with
  | nil => cases hb : vget bm k <;> simp [merge_entries, vget, hb]
  | cons hd rest ih =>
      obtain ⟨k0, v0⟩ := hd
      simp only [vkeys, List.map_cons, List.nodup_cons] at h
      have hrest : (vkeys rest).Nodup := h.2
      rw [merge_entries, ih _ hrest, vget_merge_one]
      by_cases hk : k = k0
      · subst hk
        have hnone : vget rest k = none :=
          vget_eq_none_of_not_mem (by simpa [vkeys] using h.1)
        rw [hnone]
        cases hb : vget bm k <;> simp [vget, hb]
      · simp [vget, Ne.symm hk, hk]

/-- C5: the config merger merges two mappings key-by-key, recursing when both
sides hold nested mappings at the same key, and replaces the left value with
the right value outright for any other type pair (type mismatches never
raise: the function is total).  Concretely,
merge({a:{x:1}}, {a:{y:2}}) == {a:{x:1,y:2}} and
merge({a:1}, {a:{y:2}}) == {a:{y:2}}. -/
theorem config_merger_merge_policy :
    (merge_values (Value.vmap [("a", Value.vmap [("x", Value.vint 1)])])
        (Value.vmap [("a", Value.vmap [("y", Value.vint 2)])])
      = Value.vmap [("a", Value.vmap [("x", Value.vint 1), ("y", Value.vint 2)])])
    ∧ (merge_values (Value.vmap [("a", Value.vint 1)])
        (Value.vmap [("a", Value.vmap [("y", Value.vint 2)])])
      = Value.vmap [("a", Value.vmap [("y", Value.vint 2)])])
    ∧ (∀ b n : Value, b.is_map = false ∨ n.is_map = false → merge_values b n = n)
    ∧ (∀ bm nm : ValMap,
        merge_values (Value.vmap bm) (Value.vmap nm)
          = Value.vmap (merge_entries bm nm))
    ∧ (∀ (bm nm : ValMap) (k : String), (vkeys nm).Nodup →
        vget (merge_entries bm nm) k =
          match vget bm k, vget nm k with
          | some bv, some nv => some (merge_values bv nv)
          | none, some nv => some nv
          | some bv, none => some bv
          | none, none => none) := by
  refine ⟨?_, ?_, ?_, ?_, vget_merge_entries⟩
  · simp [merge_values, merge_entries, merge_one]
  · simp [merge_values, merge_entries, merge_one]
  · intro b n hb
    cases b <;> cases n <;> simp_all [Value.is_map, merge_values]
  · intro bm nm
    rw [merge_values]

/-- Witness for C5: instantiating the merge-policy theorem at concrete inputs
(an int/dict conflict is overridden; a nodup source dict merges per key). -/
theorem config_merger_merge_policy_witness :
    merge_values (Value.vint 1) (Value.vmap [("y", Value.vint 2)])
        = Value.vmap [("y", Value.vint 2)]
    ∧ vget (merge_entries [("x", Value.vint 1)] [("x", Value.vint 7)]) "x"
        = some (merge_values (Value.vint 1) (Value.vint 7)) := by
  constructor
  · exact config_merger_merge_policy.2.2.1 _ _ (Or.inl rfl)
  · rw [config_merger_merge_policy.2.2.2.2 [("x", Value.vint 1)]
      [("x", Value.vint 7)] "x" (by simp [vkeys])]
    simp [vget]

theorem pyUpper_append (s t : String) :
    pyUpper (s ++ t) = pyUpper s ++ pyUpper t := by
  simp only [pyUpper, String.data_append, List.map_append]
  rfl

/-- C2: for every field of a schema with normalized model name M, the derived
environment key equals uppercase(OPENLLM_<M>_<field>) for primary fields and
uppercase(OPENLLM_<M>_GENERATION_<field>) for generation fields; the key is a
deterministic pure function of (model name, field name), and every key shares
the model-name-determined prefix uniformly across fields. -/
theorem env_key_contract (M f : String) :
    field_env_key M f = pyUpper ("OPENLLM_" ++ M ++ "_" ++ f)
    ∧ generation_field_env_key M f = pyUpper ("OPENLLM_" ++ M ++ "_GENERATION_" ++ f)
    ∧ field_env_key M f = field_env_key M f
    ∧ generation_field_env_key M f = generation_field_env_key M f
    ∧ field_env_key M f = ("OPENLLM_" ++ pyUpper M ++ "_") ++ pyUpper f
    ∧ generation_field_env_key M f
        = ("OPENLLM_" ++ pyUpper M ++ "_GENERATION_") ++ pyUpper f := by
  have h1 : pyUpper "OPENLLM_" = "OPENLLM_" := by decide
  have h2 : pyUpper "_" = "_" := by decide
  have h3 : pyUpper "_GENERATION_" = "_GENERATION_" := by decide
  refine ⟨?_, ?_, rfl, rfl, ?_, ?_⟩
  · simp [pyUpper_append, h1, h2, field_env_key]
  · simp [pyUpper_append, h1, h3, generation_field_env_key]
  · simp [field_env_key, String.append_assoc]
  · simp [generation_field_env_key, String.append_assoc]

/-- The ordering check succeeds exactly when (given `had_default`, every
attribute still has a default and) no mandatory attribute follows a
defaulted one. -/
theorem field_order_loop_ok_iff (had : Bool) (L : List FieldSpec) :
    field_order_loop had L = Except.ok () ↔
      ((had = true → ∀ x ∈ L, x.default.is_nothing = false)
        ∧ L.Pairwise (fun a b =>
            a.default.is_nothing = false → b.default.is_nothing = false)) := by
  induction L generalizing had with
  | nil => simp [field_order_loop]
  | cons a rest ih =>
      cases hnd : a.default.is_nothing <;> cases hhad : had <;>
        simp [field_order_loop, hnd, ih, List.pairwise_cons]

theorem not_order_violation_iff (L : List FieldSpec) :
    ¬order_violation L ↔
      L.Pairwise (fun a b =>
        a.default.is_nothing = false → b.default.is_nothing = false) := by
  rw [List.pairwise_iff_get, order_violation]
  push_neg
  constructor
  · intro h i j hij hi
    have := h i j hij hi
    simpa using this
  · intro h i j hij hi
    have := h i j hij hi
    simpa using this

theorem check_field_order_ok_iff (attrs : List FieldSpec) :
    check_field_order attrs = Except.ok () ↔
      ¬order_violation (attrs.filter (fun a => a.init && !a.kw_only)) := by
  rw [check_field_order, field_order_loop_ok_iff, not_order_violation_iff]
  simp

/-- C9: at schema-build time, if among the non-keyword-only fields of the
final ordered field table a mandatory field (one with no default) appears
after a field that has a default, schema construction fails with the
invalid-field-order error, and for every schema that builds successfully no
such ordering violation exists.  The source's check also skips attributes
taken out of `__init__`; the hypothesis that every field participates in
`__init__` holds for every field this engine itself creates. -/
theorem schema_build_field_order (inp : SchemaInput) (env : EnvMap)
    (hinit : ∀ f ∈ inp.own_fields ++ inp.base_fields, f.init = true) :
    ((∃ e, init_subclass inp env = Except.error e) ↔
      order_violation
        ((inp.own_fields.map (add_env_metadata inp.model_name)
            ++ inp.base_fields).filter (fun a => !a.kw_only)))
    ∧ (∀ S, init_subclass inp env = Except.ok S →
        ¬order_violation
          ((inp.own_fields.map (add_env_metadata inp.model_name)
              ++ inp.base_fields).filter (fun a => !a.kw_only))) := by
  have hfil :
      (inp.own_fields.map (add_env_metadata inp.model_name)
          ++ inp.base_fields).filter (fun a => a.init && !a.kw_only)
        = (inp.own_fields.map (add_env_metadata inp.model_name)
            ++ inp.base_fields).filter (fun a => !a.kw_only) := by
    apply List.filter_congr
    intro a ha
    have hi : a.init = true := by
      rcases List.mem_append.mp ha with h | h
      · rcases List.mem_map.mp h with ⟨b, hb, rfl⟩
        exact hinit b (List.mem_append.mpr (Or.inl hb))
      · exact hinit a (List.mem_append_right _ h)
    simp [hi]
  have hiff := check_field_order_ok_iff
    (inp.own_fields.map (add_env_metadata inp.model_name) ++ inp.base_fields)
  rw [hfil] at hiff
  cases hres : check_field_order
      (inp.own_fields.map (add_env_metadata inp.model_name)
        ++ inp.base_fields) with
  | error e =>
      have hviol : order_violation
          ((inp.own_fields.map (add_env_metadata inp.model_name)
              ++ inp.base_fields).filter (fun a => !a.kw_only)) := by
        by_contra hno
        have := hiff.mpr hno
        rw [hres] at this
        exact Except.noConfusion this
      constructor
      · constructor
        · intro _
          exact hviol
        · intro _
          exact ⟨e, by simp [init_subclass, hres]⟩
      · intro S hS
        simp [init_subclass, hres] at hS
  | ok u =>
      cases u
      have hno := hiff.mp hres
      constructor
      · constructor
        · intro ⟨e, he⟩
          simp [init_subclass, hres] at he
        · intro hv
          exact absurd hv hno
      · intro S _
        exact hno

/-- Witness for C9: the mis-ordered schema above fails to build. -/
theorem schema_build_field_order_witness :
    ∃ e, init_subclass bad_order_input (fun _ => none) = Except.error e := by
  refine ((schema_build_field_order bad_order_input (fun _ => none) ?_).1).mpr ?_
  · decide
  · exact ⟨⟨0, by decide⟩, ⟨1, by decide⟩, by decide, by decide, by decide⟩

/-- Instantiating a generation class with no arguments yields its
defaults. -/
theorem init_generation_nil {gen_fields : List GenField}
    (h : ∀ f ∈ gen_fields, f.default.is_nothing = false) :
    init_generation gen_fields [] = Except.ok (gen_defaults gen_fields) := by
  have hall : gen_fields.all
      (fun f => !(f.default.is_nothing && (vget [] f.name).isNone)) = true := by
    rw [List.all_eq_true]
    intro f hf
    simp [vget, h f hf]
  simp [init_generation, hall, gen_defaults, vget]
  exact h

/-- Counterexample to C3: for a schema (model name `example`) that declares
no `GenerationConfig` override block, with
`OPENLLM_EXAMPLE_GENERATION_TEMPERATURE=0.5` set in the environment, the
derived sub-schema keeps the base default `1.0` for `temperature`: the
env-resolved default is not used, although the claim requires it (whether
the claimed env value is read raw, `"0.5"`, or interpreted as the float
`0.5`). -/
theorem generation_env_default_counterexample :
    vget (gen_defaults (make_internal_generation_class "example" false [] c3_env))
        "temperature" = some (Value.vfloat 1 1)
    ∧ c3_env (generation_field_env_key "example" "temperature") = some "0.5"
    ∧ some (Value.vfloat 1 1) ≠ some (Value.vstr "0.5")
    ∧ some (Value.vfloat 1 1) ≠ some (Value.vfloat 1 2) := by
  refine ⟨rfl, rfl, by simp, by simp⟩

/-- C3 amended: a generation field's built default is the owning schema's
override-block value if one was supplied for that field, else — only when an
override block was declared at all — the raw string value of
OPENLLM_<M>_GENERATION_<FIELD>, else the base declared default; when the
schema declares no override block, the derived sub-schema keeps the base
defaults unchanged and set environment variables are ignored.  Instantiating
the built sub-schema with no arguments yields exactly these defaults. -/
theorem generation_subschema_default_resolution (M : String) (hg : Bool)
    (ov : ValMap) (env : EnvMap) :
    (make_internal_generation_class M hg ov env
      = generation_config_fields.map (fun f =>
          { f with
            env := generation_field_env_key M f.name,
            default :=
              if hg then
                match vget ov f.name with
                | some v => v
                | none =>
                    match env (generation_field_env_key M f.name) with
                    | some s => Value.vstr s
                    | none => f.default
              else f.default }))
    ∧ (∀ gfs : List GenField, (∀ f ∈ gfs, f.default.is_nothing = false) →
        init_generation gfs [] = Except.ok (gen_defaults gfs)) := by
  constructor
  · apply List.map_congr_left
    intro f _
    cases hg <;> cases hv : vget ov f.name <;>
      cases he : env (generation_field_env_key M f.name) <;>
        simp [evolve_with_base_default, populate_value_from_env_var, hv, he]
  · intro gfs h
    exact init_generation_nil h

/-- Witness for C3 (amended): at the counterexample schema, the built
sub-schema's field table is the base table with env metadata attached, and
instantiating it with no arguments returns the base defaults. -/
theorem generation_subschema_default_resolution_witness :
    init_generation (make_internal_generation_class "example" false [] c3_env) []
      = Except.ok
        (gen_defaults (make_internal_generation_class "example" false [] c3_env)) := by
  exact (generation_subschema_default_resolution "example" false [] c3_env).2
    (make_internal_generation_class "example" false [] c3_env) (by decide)

/-- `vget` over a table built by mapping names to values: a member with a
unique name gets its value. -/
theorem vget_map_of_mem {α : Type} (l : List α) (name : α → String)
    (g : α → Value) (x : α) (hx : x ∈ l) (h : (l.map name).Nodup) :
    vget (l.map (fun a => (name a, g a))) (name x) = some (g x) := by
  induction l with
  | nil => cases hx
  | cons a tl ih =>
      simp only [List.map_cons, List.nodup_cons] at h
      rcases List.mem_cons.mp hx with rfl | hx'
      · simp [vget]
      · by_cases hn : name a = name x
        · exact absurd (hn ▸ List.mem_map_of_mem name hx') h.1
        · simp only [List.map_cons, vget, hn, if_neg hn]
          exact ih hx' h.2

/-- Filtering does not change the first entry found for a key, provided that
entry survives the filter. -/
theorem vget_filter_some {l : ValMap} {p : String × Value → Bool} {k : String}
    {v : Value} (h : vget l k = some v) (hp : p (k, v) = true) :
    vget (l.filter p) k = some v := by
  induction l with
  | nil => simp [vget] at h
  | cons hd tl ih =>
      obtain ⟨k0, v0⟩ := hd
      by_cases hk : k0 = k
      · subst hk
        simp only [vget, if_pos, Option.some.injEq] at h
        subst h
        simp [List.filter_cons, hp, vget]
      · rw [vget, if_neg hk] at h
        rw [List.filter_cons]
        split
        · simpa [vget, hk] using ih h
        · exact ih h

/-- A key absent before filtering is absent after. -/
theorem vget_filter_none {l : ValMap} {p : String × Value → Bool} {k : String}
    (h : vget l k = none) : vget (l.filter p) k = none := by
  induction l with
  | nil => simp [List.filter_nil, h]
  | cons hd tl ih =>
      obtain ⟨k0, v0⟩ := hd
      by_cases hk : k0 = k
      · rw [vget, if_pos hk] at h
        cases h
      · rw [vget, if_neg hk] at h
        rw [List.filter_cons]
        split
        · simpa [vget, hk] using ih h
        · exact ih h

/-- If every pair carrying the key satisfies the filter, lookup is
untouched by the filter. -/
theorem vget_filter_key {l : ValMap} {p : String × Value → Bool} {k : String}
    (hall : ∀ v, p (k, v) = true) : vget (l.filter p) k = vget l k := by
  cases h : vget l k with
  | none => exact vget_filter_none h
  | some v => exact vget_filter_some h (hall v)

/-- Merging one pair adds exactly its key to the key set. -/
theorem mem_vkeys_merge_one {b : ValMap} {k0 : String} {v0 : Value}
    {k : String} :
    k ∈ vkeys (merge_one b k0 v0) ↔ k ∈ vkeys b ∨ k = k0 := by
  induction b with
  | nil => simp [merge_one, vkeys, eq_comm]
  | cons hd tl ih =>
      obtain ⟨k1, v1⟩ := hd
      by_cases hk : k1 = k0
      · subst hk
        simp only [merge_one, if_pos, vkeys, List.map_cons, List.mem_cons]
        rw [vkeys] at ih
        tauto
      · simp only [merge_one, if_neg hk, vkeys, List.map_cons, List.mem_cons]
        rw [vkeys] at ih
        tauto

/-- The keys after a dict merge are exactly the keys of the two sides. -/
theorem mem_vkeys_merge_entries {b n : ValMap} {k : String} :
    k ∈ vkeys (merge_entries b n) ↔ k ∈ vkeys b ∨ k ∈ vkeys n := by
  induction n generalizing b with
  | nil => simp [merge_entries, vkeys]
  | cons hd rest ih =>
      obtain ⟨k0, v0⟩ := hd
      rw [merge_entries, ih, mem_vkeys_merge_one]
      simp only [vkeys, List.map_cons, List.mem_cons]
      tauto

theorem except_bind_ok {e : Type} {a b : Type} {x : Except e a}
    {f : a → Except e b} {r : b} :
    x.bind f = Except.ok r ↔ ∃ v, x = Except.ok v ∧ f v = Except.ok r := by
  cases x <;> simp [Except.bind]

/-- Inversion for a successful `attrs_init`. -/
theorem attrs_init_ok {fields : List FieldSpec} {vals prim : ValMap}
    (h : attrs_init fields vals = Except.ok prim) :
    prim = fields.map (fun f =>
      (f.name,
        dantic_convert f.ty
          ((if f.init then vget vals f.name else none).getD f.default))) := by
  unfold attrs_init at h
  split at h
  · split at h
    · exact (Except.ok.inj h).symm
    · cases h
  · cases h

/-- Inversion for a successful `init_generation`. -/
theorem init_generation_ok {gen_fields : List GenField} {gc gen : ValMap}
    (h : init_generation gen_fields gc = Except.ok gen) :
    gen = gen_fields.map (fun f => (f.name, (vget gc f.name).getD f.default)) := by
  unfold init_generation at h
  split at h
  · split at h
    · exact (Except.ok.inj h).symm
    · cases h
  · cases h

/-- Inversion for a successful construction without an explicit
`generation_config`. -/
theorem llmconfig_init_ok_none {S : BuiltSchema} {eo : Option ValMap}
    {m : ValMap} {inst : LLMInstance}
    (h : llmconfig_init S none eo m = Except.ok inst) :
    inst.openllm_extras = init_extras S eo m
    ∧ inst.warned_generation_keys = []
    ∧ init_generation S.gen_fields (init_gc_implicit S eo m)
        = Except.ok inst.generation_config
    ∧ attrs_init S.attrs
        ((init_attrs1 S eo m).filter (fun kv =>
          !(decide (kv.1 ∈ vkeys (init_gc_implicit S eo m)))))
        = Except.ok inst.primary := by
  unfold llmconfig_init at h
  rw [except_bind_ok] at h
  obtain ⟨gen, hgen, h⟩ := h
  rw [except_bind_ok] at h
  obtain ⟨prim, hprim, h⟩ := h
  cases Except.ok.inj h
  exact ⟨rfl, rfl, hgen, hprim⟩

/-- Inversion for a successful construction with an explicit
`generation_config`. -/
theorem llmconfig_init_ok_some {S : BuiltSchema} {eo : Option ValMap}
    {gc0 m : ValMap} {inst : LLMInstance}
    (h : llmconfig_init S (some gc0) eo m = Except.ok inst) :
    inst.openllm_extras = init_extras S eo m
    ∧ inst.warned_generation_keys = init_generation_keys S eo m
    ∧ init_generation S.gen_fields gc0 = Except.ok inst.generation_config
    ∧ attrs_init S.attrs
        ((init_attrs2_explicit S eo m).filter (fun kv =>
          !(decide (kv.1 ∈ vkeys gc0))))
        = Except.ok inst.primary := by
  unfold llmconfig_init at h
  rw [except_bind_ok] at h
  obtain ⟨gen, hgen, h⟩ := h
  rw [except_bind_ok] at h
  obtain ⟨prim, hprim, h⟩ := h
  cases Except.ok.inj h
  exact ⟨rfl, rfl, hgen, hprim⟩

/-- Inversion for a successful schema build. -/
theorem init_subclass_ok {inp : SchemaInput} {env : EnvMap} {S : BuiltSchema}
    (h : init_subclass inp env = Except.ok S) :
    S.model_name = inp.model_name
    ∧ S.openllm_attrs = inp.own_fields.map FieldSpec.name
    ∧ S.attrs = (inp.own_fields.map (add_env_metadata inp.model_name)
        ++ inp.base_fields).map (resolve_default_from_env inp.model_name env)
    ∧ S.gen_fields = make_internal_generation_class inp.model_name
        inp.has_gen_class inp.gen_override env
    ∧ S.accepted_keys = inp.own_fields.map FieldSpec.name
        ++ (make_internal_generation_class inp.model_name
            inp.has_gen_class inp.gen_override env).map GenField.name := by
  unfold init_subclass at h
  split at h
  · cases h
  · cases Except.ok.inj h
    exact ⟨rfl, rfl, rfl, rfl, rfl⟩

/-- Looking up a field's assigned value in a successfully built primary
table. -/
theorem vget_attrs_init {fields : List FieldSpec} {vals prim : ValMap}
    (h : attrs_init fields vals = Except.ok prim)
    (f : FieldSpec) (hf : f ∈ fields)
    (hn : (fields.map FieldSpec.name).Nodup) :
    vget prim f.name =
      some (dantic_convert f.ty
        ((if f.init then vget vals f.name else none).getD f.default)) := by
  rw [attrs_init_ok h]
  exact vget_map_of_mem fields FieldSpec.name _ f hf hn

/-- Looking up a field's value in a successfully built generation
sub-instance. -/
theorem vget_init_generation {gen_fields : List GenField} {gc gen : ValMap}
    (h : init_generation gen_fields gc = Except.ok gen)
    (f : GenField) (hf : f ∈ gen_fields)
    (hn : (gen_fields.map GenField.name).Nodup) :
    vget gen f.name = some ((vget gc f.name).getD f.default) := by
  rw [init_generation_ok h]
  exact vget_map_of_mem gen_fields GenField.name _ f hf hn

/-- A recognized (accepted) key never reaches the extras table when no
caller-supplied extras mapping is given. -/
theorem not_mem_extras_of_accepted {S : BuiltSchema} {m : ValMap} {k : String}
    (hk : k ∈ S.accepted_keys) : k ∉ vkeys (init_extras S none m) := by
  intro hmem
  rw [init_extras] at hmem
  rcases mem_vkeys_merge_entries.mp hmem with h0 | h1
  · simp [vkeys, Option.getD] at h0
  · rw [vkeys] at h1
    rcases List.mem_map.mp h1 with ⟨kv, hkv, rfl⟩
    have hp := (List.mem_filter.mp hkv).2
    simp at hp
    exact hp hk

/-- A key outside the generation-field name table never reaches the
implicitly collected generation mapping. -/
theorem not_mem_gc_implicit_of_not_gen {S : BuiltSchema} {eo : Option ValMap}
    {m : ValMap} {k : String} (hk : k ∉ gen_names S) :
    k ∉ vkeys (init_gc_implicit S eo m) := by
  intro hmem
  rw [init_gc_implicit, vkeys] at hmem
  rcases List.mem_map.mp hmem with ⟨kv, hkv, rfl⟩
  have hp := (List.mem_filter.mp hkv).2
  simp at hp
  exact hk hp

/-- C1 amended: for every field declared on the schema subclass itself, the
effective value at instance construction follows the precedence: an explicit
(non-None) constructor argument wins over the schema-build-time default, and
with no constructor argument the value of OPENLLM_<M>_<FIELD> (interpreted
per the field's declared type) wins over the statically declared default.
(As the counterexample shows, the claim fails for inherited fields — their
names are missing from `__openllm_accepted_keys__`, so their keywords are
routed to extras and ignored; the claim is amended to own fields.) -/
theorem field_value_precedence (inp : SchemaInput) (env : EnvMap)
    (S : BuiltSchema) (hS : init_subclass inp env = Except.ok S)
    (g : FieldSpec) (hg : g ∈ inp.own_fields) (hginit : g.init = true)
    (hnodup : (S.attrs.map FieldSpec.name).Nodup)
    (hnotgen : g.name ∉ gen_names S)
    (m : ValMap) (inst : LLMInstance)
    (hinst : llmconfig_init S none none m = Except.ok inst) :
    (∀ v : Value, vget m g.name = some v → v.is_none = false →
        vget inst.primary g.name = some (dantic_convert g.ty v))
    ∧ (vget m g.name = none →
        vget inst.primary g.name
          = some (dantic_convert g.ty
              (match env (field_env_key inp.model_name g.name) with
               | some s => Value.vstr s
               | none => g.default))) := by
  obtain ⟨-, -, hattrs, -, hacc⟩ := init_subclass_ok hS
  obtain ⟨-, -, -, hprim⟩ := llmconfig_init_ok_none hinst
  -- the built attribute corresponding to g
  have hfmem : resolve_default_from_env inp.model_name env
      (add_env_metadata inp.model_name g) ∈ S.attrs := by
    rw [hattrs]
    exact List.mem_map_of_mem _
      (List.mem_append_left _ (List.mem_map_of_mem _ hg))
  have hkey := vget_attrs_init hprim _ hfmem hnodup
  simp only [resolve_default_from_env, add_env_metadata] at hkey
  rw [hginit] at hkey
  -- g's name is accepted, hence never in extras
  have haccmem : g.name ∈ S.accepted_keys := by
    rw [hacc]
    exact List.mem_append_left _ (List.mem_map_of_mem _ hg)
  have hnx := @not_mem_extras_of_accepted S m g.name haccmem
  have hngc := @not_mem_gc_implicit_of_not_gen S none m g.name hnotgen
  -- lookup through the second filter (generation keys) is transparent
  have hstep2 : ∀ vals : ValMap,
      vget (vals.filter (fun kv =>
        !(decide (kv.1 ∈ vkeys (init_gc_implicit S none m))))) g.name
        = vget vals g.name := by
    intro vals
    exact vget_filter_key (fun v => by simp [hngc])
  constructor
  · intro v hv hvn
    have h1 : vget (init_attrs1 S none m) g.name = some v := by
      rw [init_attrs1]
      exact vget_filter_some hv (by simp [hnx, hvn])
    rw [hkey, hstep2, h1]
    rfl
  · intro hv
    have h1 : vget (init_attrs1 S none m) g.name = none := by
      rw [init_attrs1]
      exact vget_filter_none hv
    rw [hkey, hstep2, h1]
    simp [populate_value_from_env_var]

/-- Counterexample to C1: on a schema with an inherited primary field `p`
(declared default 1), constructing with the explicit argument `p = 5`
yields `p = 1` — the explicit constructor argument does not win: the name
is missing from `__openllm_accepted_keys__`, so the argument is routed to
`extras` and the field falls back to its default. -/
theorem field_value_precedence_counterexample :
    init_subclass inherited_input no_env = Except.ok inherited_schema
    ∧ (llmconfig_init inherited_schema none none [("p", Value.vint 5)]).map
        (fun inst => vget inst.primary "p") = Except.ok (some (Value.vint 1))
    ∧ (llmconfig_init inherited_schema none none [("p", Value.vint 5)]).map
        (fun inst => vget inst.openllm_extras "p")
        = Except.ok (some (Value.vint 5))
    ∧ some (Value.vint 1) ≠ some (Value.vint 5) := by
  have hex : init_extras inherited_schema none [("p", Value.vint 5)]
      = [("p", Value.vint 5)] := by
    simp +decide [init_extras, merge_entries, merge_one]
  have ha1 : init_attrs1 inherited_schema none [("p", Value.vint 5)] = [] := by
    simp [init_attrs1, hex, vkeys]
  have hgc : init_gc_implicit inherited_schema none [("p", Value.vint 5)]
      = [] := by
    simp [init_gc_implicit, ha1]
  have hgen : init_generation inherited_schema.gen_fields []
      = Except.ok (gen_defaults inherited_schema.gen_fields) :=
    init_generation_nil (by decide)
  have hai : attrs_init inherited_schema.attrs
      (List.filter (fun kv =>
        !(decide (kv.1 ∈ vkeys ([] : ValMap)))) ([] : ValMap))
      = Except.ok [("p", Value.vint 1)] := rfl
  have hinit : llmconfig_init inherited_schema none none [("p", Value.vint 5)]
      = Except.ok
        { openllm_extras := [("p", Value.vint 5)],
          generation_config := gen_defaults inherited_schema.gen_fields,
          primary := [("p", Value.vint 1)] } := by
    simp only [llmconfig_init, hgc, hgen, ha1, hai, Except.bind, hex]
  refine ⟨rfl, ?_, ?_, by simp⟩
  · rw [hinit]
    simp [Except.map, vget]
  · rw [hinit]
    simp [Except.map, vget]

theorem example_init0 :
    llmconfig_init example_schema none none [] = Except.ok example_inst0 := by
  have hex : init_extras example_schema none [] = [] := by
    simp [init_extras, merge_entries]
  have ha1 : init_attrs1 example_schema none [] = [] := by
    simp [init_attrs1]
  have hgc : init_gc_implicit example_schema none [] = [] := by
    simp [init_gc_implicit, ha1]
  have hgen : init_generation example_schema.gen_fields []
      = Except.ok (gen_defaults example_schema.gen_fields) :=
    init_generation_nil (by decide)
  have hai : attrs_init example_schema.attrs
      (List.filter (fun kv =>
        !(decide (kv.1 ∈ vkeys ([] : ValMap)))) ([] : ValMap))
      = Except.ok [("max_tokens", Value.vint 50)] := rfl
  simp only [llmconfig_init, hgc, hgen, ha1, hai, Except.bind, hex]
  rfl

theorem example_init5 :
    llmconfig_init example_schema none none [("max_tokens", Value.vint 5)]
      = Except.ok example_inst5 := by
  have hex : init_extras example_schema none [("max_tokens", Value.vint 5)]
      = [] := by
    simp +decide [init_extras, merge_entries]
  have ha1 : init_attrs1 example_schema none [("max_tokens", Value.vint 5)]
      = [("max_tokens", Value.vint 5)] := by
    simp [init_attrs1, hex, vkeys, Value.is_none]
  have hgc : init_gc_implicit example_schema none
      [("max_tokens", Value.vint 5)] = [] := by
    simp +decide [init_gc_implicit, ha1, gen_names]
  have hgen : init_generation example_schema.gen_fields []
      = Except.ok (gen_defaults example_schema.gen_fields) :=
    init_generation_nil (by decide)
  have hai : attrs_init example_schema.attrs
      (List.filter (fun kv =>
        !(decide (kv.1 ∈ vkeys ([] : ValMap))))
        [("max_tokens", Value.vint 5)])
      = Except.ok [("max_tokens", Value.vint 5)] := rfl
  simp only [llmconfig_init, hgc, hgen, ha1, hai, Except.bind, hex]
  rfl

/-- Witness for C1 (amended): on the spec's `Example` schema with
`OPENLLM_EXAMPLE_MAX_TOKENS=50`, constructing with no arguments yields
`max_tokens = 50` (the env string interpreted as an int), and constructing
with `max_tokens = 5` yields 5 regardless of the environment. -/
theorem field_value_precedence_witness :
    vget example_inst0.primary "max_tokens" = some (Value.vint 50)
    ∧ vget example_inst5.primary "max_tokens" = some (Value.vint 5) := by
  have hS : init_subclass example_input env50 = Except.ok example_schema := rfl
  have h0 := (field_value_precedence example_input env50 example_schema hS
      example_field (List.mem_singleton.mpr rfl) rfl
      (by simp [example_schema]) (by decide)
      [] example_inst0 example_init0).2 rfl
  have h5 := (field_value_precedence example_input env50 example_schema hS
      example_field (List.mem_singleton.mpr rfl) rfl
      (by simp [example_schema]) (by decide)
      [("max_tokens", Value.vint 5)] example_inst5 example_init5).1
      (Value.vint 5) rfl rfl
  have hkey : env50 (field_env_key example_input.model_name example_field.name)
      = some "50" := by decide
  rw [hkey] at h0
  constructor
  · rw [show ("max_tokens" : String) = example_field.name from rfl, h0]
    exact rfl
  · rw [show ("max_tokens" : String) = example_field.name from rfl, h5]
    exact rfl

/-- A successful lookup exhibits a member. -/
theorem vget_mem {l : ValMap} {k : String} {v : Value}
    (h : vget l k = some v) : (k, v) ∈ l := by
  induction l with
  | nil => cases h
  | cons hd tl ih =>
      obtain ⟨k0, v0⟩ := hd
      by_cases hk : k0 = k
      · subst hk
        rw [vget, if_pos rfl] at h
        cases h
        exact List.mem_cons_self _ _
      · rw [vget, if_neg hk] at h
        exact List.mem_cons_of_mem _ (ih h)

/-- Key membership in a dict. -/
theorem mem_vkeys {l : ValMap} {k : String} :
    k ∈ vkeys l ↔ ∃ v, (k, v) ∈ l := by
  constructor
  · intro h
    rcases List.mem_map.mp h with ⟨⟨k1, v⟩, hm, rfl⟩
    exact ⟨v, hm⟩
  · rintro ⟨v, hv⟩
    exact List.mem_map_of_mem _ hv

/-- Key membership in a filtered dict. -/
theorem mem_vkeys_filter {l : ValMap} {p : String × Value → Bool} {k : String} :
    k ∈ vkeys (l.filter p) ↔ ∃ v, (k, v) ∈ l ∧ p (k, v) = true := by
  constructor
  · intro h
    rcases List.mem_map.mp h with ⟨⟨k1, v⟩, hm, rfl⟩
    have := List.mem_filter.mp hm
    exact ⟨v, this.1, this.2⟩
  · rintro ⟨v, hm, hp⟩
    exact List.mem_map_of_mem _ (List.mem_filter.mpr ⟨hm, hp⟩)

/-- Entries whose key the filter rejects are all gone. -/
theorem vget_filter_drop {l : ValMap} {p : String × Value → Bool} {k : String}
    (h : ∀ v, p (k, v) = false) : vget (l.filter p) k = none := by
  induction l with
  | nil => rfl
  | cons hd tl ih =>
      obtain ⟨k0, v0⟩ := hd
      rw [List.filter_cons]
      split
      · next hp =>
          have hk : k0 ≠ k := by
            rintro rfl
            rw [h v0] at hp
            cases hp
          simpa [vget, hk] using ih
      · exact ih

/-- C6: if the constructor receives both an explicit `generation_config`
mapping and top-level keywords naming sub-schema fields, it warns (the
warned keys are exactly the top-level keys naming generation fields), keeps
the explicit mapping's values (the sub-config is built from the explicit
mapping and the evolved defaults alone), and drops the colliding top-level
values: they appear neither in extras nor in any same-named primary field,
and construction succeeds. -/
theorem explicit_generation_config_wins (S : BuiltSchema) (gc0 m : ValMap)
    (inst : LLMInstance)
    (hinst : llmconfig_init S (some gc0) none m = Except.ok inst)
    (hacc : ∀ k, k ∈ gen_names S → k ∈ S.accepted_keys)
    (hnn : ∀ kv ∈ m, kv.2.is_none = false) :
    (∀ k, k ∈ inst.warned_generation_keys ↔ (k ∈ vkeys m ∧ k ∈ gen_names S))
    ∧ inst.generation_config
        = S.gen_fields.map (fun f => (f.name, (vget gc0 f.name).getD f.default))
    ∧ (∀ k ∈ gen_names S, k ∉ vkeys inst.openllm_extras)
    ∧ (∀ fld ∈ S.attrs, fld.init = true →
        (S.attrs.map FieldSpec.name).Nodup → fld.name ∈ gen_names S →
        vget inst.primary fld.name = some (dantic_convert fld.ty fld.default)) := by
  obtain ⟨hex, hw, hgen, hprim⟩ := llmconfig_init_ok_some hinst
  have hext : ∀ k, k ∈ gen_names S → k ∉ vkeys inst.openllm_extras := by
    intro k hk
    rw [hex]
    exact not_mem_extras_of_accepted (hacc k hk)
  have hmem_attrs1 : ∀ k, k ∈ gen_names S →
      (k ∈ vkeys (init_attrs1 S none m) ↔ k ∈ vkeys m) := by
    intro k hk
    rw [init_attrs1]
    constructor
    · intro h
      rcases mem_vkeys_filter.mp h with ⟨v, hv, -⟩
      exact mem_vkeys.mpr ⟨v, hv⟩
    · intro h
      rcases mem_vkeys.mp h with ⟨v, hv⟩
      refine mem_vkeys_filter.mpr ⟨v, hv, ?_⟩
      have h1 : k ∉ vkeys (init_extras S none m) :=
        not_mem_extras_of_accepted (hacc k hk)
      simp [h1, hnn _ hv]
  refine ⟨?_, init_generation_ok hgen, hext, ?_⟩
  · intro k
    rw [hw, init_generation_keys]
    constructor
    · intro h
      have h1 := List.mem_filter.mp h
      have h2 : k ∈ gen_names S := by simpa using h1.2
      exact ⟨(hmem_attrs1 k h2).mp h1.1, h2⟩
    · rintro ⟨hm, hg⟩
      exact List.mem_filter.mpr ⟨(hmem_attrs1 k hg).mpr hm, by simpa using hg⟩
  · intro fld hfld hfi hnodup hfg
    have hkey := vget_attrs_init hprim fld hfld hnodup
    have hdrop : vget ((init_attrs2_explicit S none m).filter (fun kv =>
        !(decide (kv.1 ∈ vkeys gc0)))) fld.name = none := by
      by_cases hg : fld.name ∈ vkeys gc0
      · exact vget_filter_drop (fun v => by simp [hg])
      · rw [vget_filter_key (fun v => by simp [hg])]
        rw [init_attrs2_explicit]
        by_cases hk : fld.name ∈ init_generation_keys S none m
        · exact vget_filter_drop (fun v => by simp [hk])
        · rw [vget_filter_key (fun v => by simp [hk])]
          have : fld.name ∉ vkeys (init_attrs1 S none m) := by
            intro hmem
            apply hk
            rw [init_generation_keys]
            exact List.mem_filter.mpr ⟨hmem, by simpa using hfg⟩
          cases hv : vget (init_attrs1 S none m) fld.name with
          | none => rfl
          | some v =>
              exact absurd (mem_vkeys.mpr ⟨v, vget_mem hv⟩) this
    rw [hkey, hdrop, hfi]
    rfl

theorem c6_init :
    llmconfig_init example_schema (some [("temperature", Value.vfloat 9 10)])
      none [("temperature", Value.vfloat 1 10)] = Except.ok c6_inst := by
  have hex : init_extras example_schema none
      [("temperature", Value.vfloat 1 10)] = [] := by
    simp +decide [init_extras, merge_entries]
  have ha1 : init_attrs1 example_schema none
      [("temperature", Value.vfloat 1 10)]
      = [("temperature", Value.vfloat 1 10)] := by
    simp [init_attrs1, hex, vkeys, Value.is_none]
  have hgk : init_generation_keys example_schema none
      [("temperature", Value.vfloat 1 10)] = ["temperature"] := by
    simp +decide [init_generation_keys, ha1]
  have ha2 : init_attrs2_explicit example_schema none
      [("temperature", Value.vfloat 1 10)] = [] := by
    simp [init_attrs2_explicit, ha1, hgk]
  have hgen : init_generation example_schema.gen_fields
      [("temperature", Value.vfloat 9 10)]
      = Except.ok c6_inst.generation_config := rfl
  have hai : attrs_init example_schema.attrs
      (List.filter (fun kv =>
        !(decide (kv.1 ∈ vkeys [("temperature", Value.vfloat 9 10)])))
        ([] : ValMap))
      = Except.ok [("max_tokens", Value.vint 50)] := rfl
  simp only [llmconfig_init, hgen, ha2, hai, Except.bind, hex, hgk]
  rfl

/-- Witness for C6: on the `Example` schema, constructing with
`generation_config={"temperature": 0.9}` together with top-level
`temperature=0.1` warns about `temperature` and yields
`generation_config.temperature == 0.9`. -/
theorem explicit_generation_config_wins_witness :
    ("temperature" ∈ c6_inst.warned_generation_keys
      ↔ ("temperature" ∈ vkeys [("temperature", Value.vfloat 1 10)]
          ∧ "temperature" ∈ gen_names example_schema))
    ∧ vget c6_inst.generation_config "temperature"
        = some (Value.vfloat 9 10) := by
  have h := explicit_generation_config_wins example_schema
    [("temperature", Value.vfloat 9 10)] [("temperature", Value.vfloat 1 10)]
    c6_inst c6_init (by decide) (by decide)
  refine ⟨h.1 "temperature", ?_⟩
  rw [h.2.1]
  exact rfl

/-- Counterexample to C4: a caller-supplied extras mapping is merged into
`__openllm_extras__` verbatim (src lines 998-1001), with no filtering
against the field tables — so the resulting extras can contain a
primary-field name, violating the claimed invariant. -/
theorem constructor_key_partition_counterexample :
    (llmconfig_init example_schema none (some [("max_tokens", Value.vint 1)]) []).map
        (fun inst => vget inst.openllm_extras "max_tokens")
      = Except.ok (some (Value.vint 1))
    ∧ "max_tokens" ∈ example_schema.attrs.map FieldSpec.name := by
  have hex : init_extras example_schema (some [("max_tokens", Value.vint 1)]) []
      = [("max_tokens", Value.vint 1)] := by
    simp [init_extras, merge_entries]
  have ha1 : init_attrs1 example_schema (some [("max_tokens", Value.vint 1)]) []
      = [] := by
    simp [init_attrs1]
  have hgc : init_gc_implicit example_schema
      (some [("max_tokens", Value.vint 1)]) [] = [] := by
    simp [init_gc_implicit, ha1]
  have hgen : init_generation example_schema.gen_fields []
      = Except.ok (gen_defaults example_schema.gen_fields) :=
    init_generation_nil (by decide)
  have hai : attrs_init example_schema.attrs
      (List.filter (fun kv =>
        !(decide (kv.1 ∈ vkeys ([] : ValMap)))) ([] : ValMap))
      = Except.ok [("max_tokens", Value.vint 50)] := rfl
  constructor
  · simp only [llmconfig_init, hgc, hgen, ha1, hai, Except.bind, hex]
    simp [Except.map, vget]
  · decide

/-- C4 amended: when no caller-supplied extras mapping is given, for a schema
whose primary fields are all declared on the subclass itself and whose
primary and generation field names are disjoint, every constructor keyword
lands in exactly one of the three buckets — it names a primary field, or a
generation field, or it appears in the resulting extras — and the resulting
extras never contain a primary- or generation-field name.  (A
caller-supplied extras mapping is merged verbatim and may contain field
names, as the counterexample shows; with inherited primary fields the same
misrouting applies to their names.) -/
theorem constructor_key_partition (inp : SchemaInput) (env : EnvMap)
    (S : BuiltSchema) (hS : init_subclass inp env = Except.ok S)
    (hbase : inp.base_fields = [])
    (hdisj : ∀ k, k ∈ primary_names S → k ∉ gen_names S)
    (gcfg : Option ValMap) (m : ValMap) (inst : LLMInstance)
    (hinst : llmconfig_init S gcfg none m = Except.ok inst) :
    (∀ k ∈ vkeys m,
        (k ∈ primary_names S ∧ k ∉ gen_names S ∧ k ∉ vkeys inst.openllm_extras)
        ∨ (k ∈ gen_names S ∧ k ∉ primary_names S ∧ k ∉ vkeys inst.openllm_extras)
        ∨ (k ∈ vkeys inst.openllm_extras ∧ k ∉ primary_names S
            ∧ k ∉ gen_names S))
    ∧ (∀ k, k ∈ vkeys inst.openllm_extras →
        k ∉ primary_names S ∧ k ∉ gen_names S) := by
  obtain ⟨-, -, hattrs, hgenf, hacc⟩ := init_subclass_ok hS
  have hext : inst.openllm_extras = init_extras S none m := by
    cases gcfg with
    | none => exact (llmconfig_init_ok_none hinst).1
    | some gc0 => exact (llmconfig_init_ok_some hinst).1
  have hpn : primary_names S = inp.own_fields.map FieldSpec.name := by
    rw [primary_names, hattrs, hbase]
    simp [List.map_map]
    exact fun a _ => rfl
  have haccept : ∀ k, k ∈ S.accepted_keys ↔
      (k ∈ primary_names S ∨ k ∈ gen_names S) := by
    intro k
    rw [hacc, hpn, gen_names, hgenf, List.mem_append]
  have hexkeys : ∀ k, k ∈ vkeys inst.openllm_extras ↔
      (k ∈ vkeys m ∧ k ∉ S.accepted_keys) := by
    intro k
    rw [hext, init_extras]
    rw [mem_vkeys_merge_entries]
    simp only [Option.getD, vkeys, List.map_nil, List.not_mem_nil, false_or]
    constructor
    · intro h
      rcases mem_vkeys_filter.mp h with ⟨v, hv, hp⟩
      exact ⟨mem_vkeys.mpr ⟨v, hv⟩, by simpa using hp⟩
    · rintro ⟨hm, hna⟩
      rcases mem_vkeys.mp hm with ⟨v, hv⟩
      exact mem_vkeys_filter.mpr ⟨v, hv, by simpa using hna⟩
  constructor
  · intro k hk
    by_cases ha : k ∈ S.accepted_keys
    · have hne : k ∉ vkeys inst.openllm_extras := by
        rw [hexkeys]
        rintro ⟨-, hcon⟩
        exact hcon ha
      rcases (haccept k).mp ha with hp | hg
      · exact Or.inl ⟨hp, hdisj k hp, hne⟩
      · refine Or.inr (Or.inl ⟨hg, ?_, hne⟩)
        intro hp
        exact hdisj k hp hg
    · refine Or.inr (Or.inr ⟨(hexkeys k).mpr ⟨hk, ha⟩, ?_, ?_⟩)
      · intro hp
        exact ha ((haccept k).mpr (Or.inl hp))
      · intro hg
        exact ha ((haccept k).mpr (Or.inr hg))
  · intro k hkx
    have := (hexkeys k).mp hkx
    constructor
    · intro hp
      exact this.2 ((haccept k).mpr (Or.inl hp))
    · intro hg
      exact this.2 ((haccept k).mpr (Or.inr hg))

theorem c4_init :
    llmconfig_init example_schema none none
      [("temperature", Value.vfloat 1 5), ("foo", Value.vstr "bar")]
      = Except.ok c4_inst := by
  have hex : init_extras example_schema none
      [("temperature", Value.vfloat 1 5), ("foo", Value.vstr "bar")]
      = [("foo", Value.vstr "bar")] := by
    simp +decide [init_extras, merge_entries, merge_one]
  have ha1 : init_attrs1 example_schema none
      [("temperature", Value.vfloat 1 5), ("foo", Value.vstr "bar")]
      = [("temperature", Value.vfloat 1 5)] := by
    simp [init_attrs1, hex, vkeys, Value.is_none]
  have hgc : init_gc_implicit example_schema none
      [("temperature", Value.vfloat 1 5), ("foo", Value.vstr "bar")]
      = [("temperature", Value.vfloat 1 5)] := by
    simp +decide [init_gc_implicit, ha1, gen_names]
  have hgen : init_generation example_schema.gen_fields
      [("temperature", Value.vfloat 1 5)]
      = Except.ok c4_inst.generation_config := rfl
  have hfin : (init_attrs1 example_schema none
      [("temperature", Value.vfloat 1 5), ("foo", Value.vstr "bar")]).filter
        (fun kv =>
          !(decide (kv.1 ∈ vkeys [("temperature", Value.vfloat 1 5)])))
      = [] := by
    rw [ha1]
    simp [vkeys]
  have hai : attrs_init example_schema.attrs ([] : ValMap)
      = Except.ok [("max_tokens", Value.vint 50)] := rfl
  simp only [llmconfig_init, hgc, hgen, hfin, hai, Except.bind, hex]
  rfl

/-- Witness for C4 (amended): constructing `Example` with
`{temperature: 0.2, foo: "bar"}`, `temperature` lands exactly in the
sub-schema bucket and `foo` exactly in extras. -/
theorem constructor_key_partition_witness :
    ("temperature" ∈ gen_names example_schema
      ∧ "temperature" ∉ primary_names example_schema
      ∧ "temperature" ∉ vkeys c4_inst.openllm_extras)
    ∧ ("foo" ∈ vkeys c4_inst.openllm_extras
      ∧ "foo" ∉ primary_names example_schema
      ∧ "foo" ∉ gen_names example_schema) := by
  have h := constructor_key_partition example_input env50 example_schema rfl
    rfl (by decide) none
    [("temperature", Value.vfloat 1 5), ("foo", Value.vstr "bar")]
    c4_inst c4_init
  constructor
  · rcases h.1 "temperature" (by decide) with ⟨hp, -, -⟩ | hok | ⟨hx, -, -⟩
    · exact absurd hp (by decide)
    · exact ⟨hok.1, hok.2.1, hok.2.2⟩
    · exact absurd hx (by decide)
  · rcases h.1 "foo" (by decide) with ⟨hp, -, -⟩ | ⟨hg, -, -⟩ | hok
    · exact absurd hp (by decide)
    · exact absurd hg (by decide)
    · exact ⟨hok.1, hok.2.1, hok.2.2⟩

/-- C10: a recognized (accepted) field name passed to the constructor with
value `None` is silently discarded — the construction result is exactly the
one for the same input without that key — and the same holds (for every key)
in `model_construct_env`; with no arguments at all, every field resolves to
its schema-build-time default (interpreted per its declared type), so a
`None` value can never override a field's default. -/
theorem none_valued_arguments_discarded :
    (∀ (S : BuiltSchema) (gcfg : Option ValMap) (eo : Option ValMap)
        (m : ValMap) (k : String), k ∈ S.accepted_keys →
      llmconfig_init S gcfg eo ((k, Value.vnone) :: m)
        = llmconfig_init S gcfg eo m)
    ∧ (∀ (S : BuiltSchema) (decode : String → Option Value) (env : EnvMap)
        (m : ValMap) (k : String),
      model_construct_env S decode env ((k, Value.vnone) :: m)
        = model_construct_env S decode env m)
    ∧ (∀ (S : BuiltSchema) (inst : LLMInstance),
        llmconfig_init S none none [] = Except.ok inst →
        inst.primary = S.attrs.map
          (fun f => (f.name, dantic_convert f.ty f.default))) := by
  refine ⟨?_, ?_, ?_⟩
  · intro S gcfg eo m k hk
    have he : init_extras S eo ((k, Value.vnone) :: m) = init_extras S eo m := by
      rw [init_extras, init_extras, List.filter_cons]
      simp [hk]
    have ha : init_attrs1 S eo ((k, Value.vnone) :: m)
        = init_attrs1 S eo m := by
      rw [init_attrs1, init_attrs1, he, List.filter_cons]
      simp [Value.is_none]
    have h2 : init_generation_keys S eo ((k, Value.vnone) :: m)
        = init_generation_keys S eo m := by
      rw [init_generation_keys, init_generation_keys, ha]
    have h3 : init_attrs2_explicit S eo ((k, Value.vnone) :: m)
        = init_attrs2_explicit S eo m := by
      rw [init_attrs2_explicit, init_attrs2_explicit, ha, h2]
    have h4 : init_gc_implicit S eo ((k, Value.vnone) :: m)
        = init_gc_implicit S eo m := by
      rw [init_gc_implicit, init_gc_implicit, ha]
    cases gcfg <;> simp only [llmconfig_init, he, ha, h2, h3, h4]
  · intro S decode env m k
    have h0 : ((k, Value.vnone) :: m).filter (fun kv => !kv.2.is_none)
        = m.filter (fun kv => !kv.2.is_none) := by
      simp [List.filter_cons, Value.is_none]
    simp [model_construct_env, h0]
  · intro S inst hinst
    obtain ⟨-, -, -, hprim⟩ := llmconfig_init_ok_none hinst
    have := attrs_init_ok hprim
    rw [this]
    apply List.map_congr_left
    intro f _
    cases hf : f.init <;> simp [vget, init_attrs1]

/-- Witness for C10: on the `Example` schema, passing `max_tokens = None`
is the same as passing nothing. -/
theorem none_valued_arguments_discarded_witness :
    llmconfig_init example_schema none none [("max_tokens", Value.vnone)]
      = llmconfig_init example_schema none none []
    ∧ example_inst0.primary = example_schema.attrs.map
        (fun f => (f.name, dantic_convert f.ty f.default)) := by
  constructor
  · exact none_valued_arguments_discarded.1 example_schema none none []
      "max_tokens" (by decide)
  · exact none_valued_arguments_discarded.2.2 example_schema example_inst0
      example_init0

theorem structure_explicit_eq (S : BuiltSchema) (d gm : ValMap)
    (hget : vget d "generation_config" = some (Value.vmap gm)) :
    structure_llm_config S (Value.vmap d)
      = llmconfig_init S (some (structure_gc_explicit S gm d))
          (some ((structure_pop d).filter (fun kv =>
            !(decide (kv.1 ∈ vkeys (structure_cls_attrs S d)
                ++ vkeys (structure_gc_explicit S gm d))))))
          (structure_cls_attrs S d) := by
  simp only [structure_llm_config, hget]

theorem structure_implicit_eq (S : BuiltSchema) (d : ValMap)
    (hget : vget d "generation_config" = none) :
    structure_llm_config S (Value.vmap d)
      = llmconfig_init S (some (structure_gc_implicit S d))
          (some (d.filter (fun kv =>
            !(decide (kv.1 ∈ vkeys (structure_cls_attrs S d)
                ++ vkeys (structure_gc_implicit S d))))))
          (structure_cls_attrs S d) := by
  simp only [structure_llm_config, hget]

theorem vkeys_filter_sublist (l : ValMap) (p : String × Value → Bool) :
    (vkeys (l.filter p)).Sublist (vkeys l) :=
  List.Sublist.map _ (List.filter_sublist l)

/-- Counterexample to C8: the explicit `generation_config` mapping is not
used verbatim — the top-level `temperature=0.1` is deep-merged into it and,
being the merge source, wins over the explicit `0.9`. -/
theorem structure_generation_config_counterexample :
    (structure_llm_config example_schema (Value.vmap c8_data)).map
        (fun inst => vget inst.generation_config "temperature")
      = Except.ok (some (Value.vfloat 1 10))
    ∧ some (Value.vfloat 1 10) ≠ some (Value.vfloat 9 10) := by
  have hgc : structure_gc_explicit example_schema
      [("temperature", Value.vfloat 9 10)] c8_data
      = [("temperature", Value.vfloat 1 10)] := by
    simp +decide [structure_gc_explicit, structure_pop, c8_data, gen_names,
      merge_entries, merge_one, merge_values]
  have hcls : structure_cls_attrs example_schema c8_data = [] := by
    simp +decide [structure_cls_attrs, c8_data]
  have hrest : (structure_pop c8_data).filter (fun kv =>
      !(decide (kv.1 ∈ vkeys ([] : ValMap)
          ++ vkeys [("temperature", Value.vfloat 1 10)]))) = [] := by
    simp +decide [structure_pop, c8_data, vkeys]
  have hex : init_extras example_schema (some []) [] = [] := by
    simp [init_extras, merge_entries]
  have hgk : init_generation_keys example_schema (some []) [] = [] := by
    simp [init_generation_keys, init_attrs1]
  have ha2 : init_attrs2_explicit example_schema (some []) [] = [] := by
    simp [init_attrs2_explicit, init_attrs1]
  have hgen : init_generation example_schema.gen_fields
      [("temperature", Value.vfloat 1 10)]
      = Except.ok (example_schema.gen_fields.map
          (fun f => (f.name,
            (vget [("temperature", Value.vfloat 1 10)] f.name).getD f.default)))
      := rfl
  have hai : attrs_init example_schema.attrs ([] : ValMap)
      = Except.ok [("max_tokens", Value.vint 50)] := rfl
  constructor
  · rw [structure_explicit_eq example_schema c8_data
      [("temperature", Value.vfloat 9 10)] rfl, hgc, hcls, hrest]
    simp only [llmconfig_init, hgen, ha2, List.filter_nil, hai, Except.bind,
      hex, hgk]
    simp only [Except.map]
    exact rfl
  · simp

/-- C8 amended: for an input dict holding a `generation_config` key with a
dict value, the structuring bridge does not use that mapping verbatim — the
top-level keys naming generation fields are deep-merged into it, the top
level (as the merge source) winning per the merge policy; absent the key,
the top-level keys naming generation fields are collected; in both cases
keys naming class attributes become constructor keywords and every
remaining key (naming neither a class attribute, a generation field, nor a
key of the explicit mapping) reaches the resulting extras. -/
theorem structure_llm_config_routing (S : BuiltSchema) (d : ValMap) :
    (∀ gm, vget d "generation_config" = some (Value.vmap gm) →
        structure_llm_config S (Value.vmap d)
          = llmconfig_init S (some (structure_gc_explicit S gm d))
              (some ((structure_pop d).filter (fun kv =>
                !(decide (kv.1 ∈ vkeys (structure_cls_attrs S d)
                    ++ vkeys (structure_gc_explicit S gm d))))))
              (structure_cls_attrs S d))
    ∧ (vget d "generation_config" = none →
        structure_llm_config S (Value.vmap d)
          = llmconfig_init S (some (structure_gc_implicit S d))
              (some (d.filter (fun kv =>
                !(decide (kv.1 ∈ vkeys (structure_cls_attrs S d)
                    ++ vkeys (structure_gc_implicit S d))))))
              (structure_cls_attrs S d))
    ∧ (∀ (gm : ValMap) (k : String), (vkeys d).Nodup →
        vget (structure_gc_explicit S gm d) k =
          match vget gm k,
              vget ((structure_pop d).filter (fun kv =>
                decide (kv.1 ∈ gen_names S))) k with
          | some bv, some nv => some (merge_values bv nv)
          | none, some nv => some nv
          | some bv, none => some bv
          | none, none => none)
    ∧ (∀ inst, structure_llm_config S (Value.vmap d) = Except.ok inst →
        ∀ k v, (k, v) ∈ d → k ∉ S.openllm_attrs → k ∉ gen_names S →
          k ≠ "generation_config" →
          (∀ gm, vget d "generation_config" = some (Value.vmap gm) →
            k ∉ vkeys gm) →
          k ∈ vkeys inst.openllm_extras) := by
  refine ⟨structure_explicit_eq S d, structure_implicit_eq S d, ?_, ?_⟩
  · intro gm k hnd
    rw [structure_gc_explicit]
    exact vget_merge_entries gm _ k
      (((vkeys_filter_sublist _ _).trans (vkeys_filter_sublist _ _)).nodup hnd)
  · intro inst hok k v hkv hkc hkg hkgc hkgm
    have hkcls : k ∉ vkeys (structure_cls_attrs S d) := by
      intro hmem
      rcases mem_vkeys_filter.mp hmem with ⟨w, -, hp⟩
      exact hkc (by simpa using hp)
    cases hg : vget d "generation_config" with
    | none =>
        rw [structure_implicit_eq S d hg] at hok
        have hkgci : k ∉ vkeys (structure_gc_implicit S d) := by
          intro hmem
          rcases mem_vkeys_filter.mp hmem with ⟨w, -, hp⟩
          exact hkg (by simpa using hp)
        have hrest : k ∈ vkeys (d.filter (fun kv =>
            !(decide (kv.1 ∈ vkeys (structure_cls_attrs S d)
                ++ vkeys (structure_gc_implicit S d))))) := by
          refine mem_vkeys_filter.mpr ⟨v, hkv, ?_⟩
          simp only [Bool.not_eq_true', decide_eq_false_iff_not]
          rw [List.mem_append]
          rintro (h | h)
          · exact hkcls h
          · exact hkgci h
        rw [(llmconfig_init_ok_some hok).1, init_extras]
        exact mem_vkeys_merge_entries.mpr (Or.inl hrest)
    | some g =>
        cases g with
        | vmap gm =>
            rw [structure_explicit_eq S d gm hg] at hok
            have hkgce : k ∉ vkeys (structure_gc_explicit S gm d) := by
              rw [structure_gc_explicit]
              intro hmem
              rcases mem_vkeys_merge_entries.mp hmem with h | h
              · exact hkgm gm hg h
              · rcases mem_vkeys_filter.mp h with ⟨w, -, hp⟩
                exact hkg (by simpa using hp)
            have hrest : k ∈ vkeys ((structure_pop d).filter (fun kv =>
                !(decide (kv.1 ∈ vkeys (structure_cls_attrs S d)
                    ++ vkeys (structure_gc_explicit S gm d))))) := by
              refine mem_vkeys_filter.mpr ⟨v, ?_, ?_⟩
              · exact List.mem_filter.mpr ⟨hkv, by simpa using hkgc⟩
              · simp only [Bool.not_eq_true', decide_eq_false_iff_not]
                rw [List.mem_append]
                rintro (h | h)
                · exact hkcls h
                · exact hkgce h
            rw [(llmconfig_init_ok_some hok).1, init_extras]
            exact mem_vkeys_merge_entries.mpr (Or.inl hrest)
        | vnothing => simp [structure_llm_config, hg] at hok
        | vnone => simp [structure_llm_config, hg] at hok
        | vbool b => simp [structure_llm_config, hg] at hok
        | vint n => simp [structure_llm_config, hg] at hok
        | vfloat a b => simp [structure_llm_config, hg] at hok
        | vstr t => simp [structure_llm_config, hg] at hok

/-- Witness for C8 (amended): at the counterexample input, the sub-schema
override used for `temperature` is the merge of the explicit value with the
top-level value. -/
theorem structure_llm_config_routing_witness :
    vget (structure_gc_explicit example_schema
        [("temperature", Value.vfloat 9 10)] c8_data) "temperature"
      = some (merge_values (Value.vfloat 9 10) (Value.vfloat 1 10)) := by
  have h := (structure_llm_config_routing example_schema c8_data).2.2.1
    [("temperature", Value.vfloat 9 10)] "temperature" (by decide)
  rw [h]
  exact rfl

/-- The keys of a name-to-value table are the names. -/
theorem vkeys_map_name {α : Type} (l : List α) (name : α → String)
    (g : α → Value) :
    vkeys (l.map (fun a => (name a, g a))) = l.map name := by
  simp [vkeys, List.map_map]

/-- Lookup distributes over append: the left side wins. -/
theorem vget_append (l1 l2 : ValMap) (k : String) :
    vget (l1 ++ l2) k =
      match vget l1 k with
      | some v => some v
      | none => vget l2 k := by
  induction l1 with
  | nil => simp [vget]
  | cons hd tl ih =>
      obtain ⟨k0, v0⟩ := hd
      by_cases hk : k0 = k <;> simp [vget, hk, ih]

/-- In a duplicate-free dict, filtering out the entry holding a key makes
the key unfindable. -/
theorem vget_filter_some_dropped {l : ValMap} {p : String × Value → Bool}
    {k : String} {v : Value} (hnd : (vkeys l).Nodup)
    (h : vget l k = some v) (hp : p (k, v) = false) :
    vget (l.filter p) k = none := by
  induction l with
  | nil => cases h
  | cons hd tl ih =>
      obtain ⟨k0, v0⟩ := hd
      simp only [vkeys, List.map_cons, List.nodup_cons] at hnd
      by_cases hk : k0 = k
      · subst hk
        rw [vget, if_pos rfl, Option.some.injEq] at h
        subst h
        rw [List.filter_cons, if_neg (by simp [hp])]
        exact vget_eq_none_of_not_mem
          (fun hc => hnd.1 ((vkeys_filter_sublist tl p).subset hc))
      · rw [vget, if_neg hk] at h
        rw [List.filter_cons]
        split
        · simpa [vget, hk] using ih hnd.2 h
        · exact ih hnd.2 h

/-- A parsed decimal is a float value. -/
theorem parse_decimal_core_is_float {sign : Int} {cs : List Char} {v : Value}
    (h : parse_decimal_core sign cs = some v) : ∃ a b, v = Value.vfloat a b := by
  unfold parse_decimal_core at h
  split at h
  · rcases Option.map_eq_some'.mp h with ⟨n, -, rfl⟩
    exact ⟨_, _, rfl⟩
  · split at h
    · cases h
      exact ⟨_, _, rfl⟩
    · cases h

theorem parse_decimal_is_float {s : String} {v : Value}
    (h : parse_decimal s = some v) : ∃ a b, v = Value.vfloat a b := by
  unfold parse_decimal at h
  split at h <;> exact parse_decimal_core_is_float h

/-- `dantic_convert` never turns a non-None value into None. -/
theorem dantic_convert_not_none {ty : PyType} {v : Value}
    (h : v.is_none = false) : (dantic_convert ty v).is_none = false := by
  cases v with
  | vnone => simp [Value.is_none] at h
  | vnothing => cases ty <;> exact h
  | vbool b => cases ty <;> exact h
  | vint n => cases ty <;> exact h
  | vfloat a b => cases ty <;> exact h
  | vmap entries => cases ty <;> exact h
  | vstr s =>
      cases ty with
      | pystr => exact h
      | pyother => exact h
      | pyint =>
          cases hp : py_int_of_string s <;>
            simp [dantic_convert, hp, Value.is_none]
      | pyfloat =>
          cases hp : parse_decimal s with
          | none => simp [dantic_convert, hp, Value.is_none]
          | some w =>
              rcases parse_decimal_is_float hp with ⟨a, b, rfl⟩
              simp [dantic_convert, hp, Value.is_none]
      | pybool =>
          simp only [dantic_convert]
          split
          · rfl
          · split
            · rfl
            · exact h

/-- `dantic_convert` is idempotent: converting an already-converted value
changes nothing. -/
theorem dantic_convert_idem (ty : PyType) (v : Value) :
    dantic_convert ty (dantic_convert ty v) = dantic_convert ty v := by
  cases v with
  | vnone => cases ty <;> rfl
  | vnothing => cases ty <;> rfl
  | vbool b => cases ty <;> rfl
  | vint n => cases ty <;> rfl
  | vfloat a b => cases ty <;> rfl
  | vmap entries => cases ty <;> rfl
  | vstr s =>
      cases ty with
      | pystr => rfl
      | pyother => rfl
      | pyint =>
          cases hp : py_int_of_string s <;> simp [dantic_convert, hp]
      | pyfloat =>
          cases hp : parse_decimal s with
          | none => simp [dantic_convert, hp]
          | some w =>
              rcases parse_decimal_is_float hp with ⟨a, b, rfl⟩
              simp [dantic_convert, hp]
      | pybool =>
          by_cases h1 : s = "True" ∨ s = "true" ∨ s = "1"
          · simp [dantic_convert, h1]
          · by_cases h2 : s = "False" ∨ s = "false" ∨ s = "0" <;>
              simp [dantic_convert, h1, h2]

/-- `attrs_init` succeeds when every keyword names an init field and no
field is mandatory. -/
theorem attrs_init_ok_of {fields : List FieldSpec} {vals : ValMap}
    (hk : ∀ kv ∈ vals, ∃ f ∈ fields, f.name = kv.1 ∧ f.init = true)
    (hnm : ∀ f ∈ fields, f.default.is_nothing = false) :
    attrs_init fields vals = Except.ok (fields.map (fun f =>
      (f.name,
        dantic_convert f.ty
          ((if f.init then vget vals f.name else none).getD f.default)))) := by
  have h1 : vals.all
      (fun kv => fields.any (fun f => f.name == kv.1 && f.init)) = true := by
    rw [List.all_eq_true]
    intro kv hkv
    rcases hk kv hkv with ⟨f, hf, hname, hinit⟩
    rw [List.any_eq_true]
    exact ⟨f, hf, by simp [hname, hinit]⟩
  have h2 : fields.all (fun f =>
      !(f.init && f.default.is_nothing && (vget vals f.name).isNone)) = true := by
    rw [List.all_eq_true]
    intro f hf
    simp [hnm f hf]
  rw [attrs_init, if_pos h1, if_pos h2]

/-- `init_generation` succeeds when every keyword names a field and no
field is mandatory. -/
theorem init_generation_ok_of {gen_fields : List GenField} {gc : ValMap}
    (hk : ∀ kv ∈ gc, ∃ f ∈ gen_fields, f.name = kv.1)
    (hnm : ∀ f ∈ gen_fields, f.default.is_nothing = false) :
    init_generation gen_fields gc = Except.ok (gen_fields.map (fun f =>
      (f.name, (vget gc f.name).getD f.default))) := by
  have h1 : gc.all
      (fun kv => gen_fields.any (fun f => f.name == kv.1)) = true := by
    rw [List.all_eq_true]
    intro kv hkv
    rcases hk kv hkv with ⟨f, hf, hname⟩
    rw [List.any_eq_true]
    exact ⟨f, hf, by simp [hname]⟩
  have h2 : gen_fields.all
      (fun f => !(f.default.is_nothing && (vget gc f.name).isNone)) = true := by
    rw [List.all_eq_true]
    intro f hf
    simp [hnm f hf]
  rw [init_generation, if_pos h1, if_pos h2]

/-- Keys of the unstructured generation dict name generation fields. -/
theorem mem_vkeys_unstructure {gen_fields : List GenField} {g : ValMap}
    {k : String} (h : k ∈ vkeys (unstructure_generation gen_fields g)) :
    k ∈ gen_fields.map GenField.name := by
  rw [unstructure_generation, vkeys_map_name] at h
  rcases List.mem_map.mp h with ⟨f, hf, rfl⟩
  exact List.mem_map_of_mem _ (List.mem_of_mem_filter hf)

/-- C7 amended: the model_dump/structure round trip preserves every
primary-field value; a sub-schema field is preserved exactly when its
(evolved) class default is neither None nor NOTHING — fields with such
defaults are omitted by the unstructure hook and come back as their
defaults — and the extras mapping is not preserved: it always comes back
empty (the unstructure hook covers only the attrs fields). -/
theorem model_dump_roundtrip (inp : SchemaInput) (env : EnvMap)
    (S : BuiltSchema) (hS : init_subclass inp env = Except.ok S)
    (hbase : inp.base_fields = [])
    (hSinit : ∀ f ∈ S.attrs, f.init = true)
    (hann : ∀ f ∈ S.attrs, f.default.is_nothing = false)
    (hgnn : ∀ f ∈ S.gen_fields, f.default.is_nothing = false)
    (hndP : (primary_names S).Nodup)
    (hndG : (gen_names S).Nodup)
    (hdisj : ∀ k ∈ primary_names S, k ∉ gen_names S)
    (hngc : "generation_config" ∉ primary_names S)
    (m : ValMap) (inst : LLMInstance)
    (hi : llmconfig_init S none none m = Except.ok inst) :
    ∃ j, structure_llm_config S (Value.vmap (model_dump S inst false))
        = Except.ok j
      ∧ j.primary = inst.primary
      ∧ j.openllm_extras = []
      ∧ ∀ f ∈ S.gen_fields,
          vget j.generation_config f.name
            = if (f.default.is_none || f.default.is_nothing) = true
              then some f.default
              else vget inst.generation_config f.name := by
  obtain ⟨-, hopen, hattrs, -, hacc⟩ := init_subclass_ok hS
  obtain ⟨-, -, hgeni, hprimi⟩ := llmconfig_init_ok_none hi
  have hprim_eq := attrs_init_ok hprimi
  have hkeysP : vkeys inst.primary = primary_names S := by
    rw [hprim_eq, vkeys_map_name]
    rfl
  have hpn : primary_names S = inp.own_fields.map FieldSpec.name := by
    rw [primary_names, hattrs, hbase]
    simp [List.map_map]
    exact fun a _ => rfl
  have hopenP : S.openllm_attrs = primary_names S := by rw [hopen, hpn]
  have haccP : ∀ k ∈ primary_names S, k ∈ S.accepted_keys := by
    intro k hk
    rw [hacc]
    rw [hpn] at hk
    exact List.mem_append_left _ hk
  have hmemP : ∀ kv ∈ inst.primary, kv.1 ∈ primary_names S := by
    intro kv hkv
    rw [← hkeysP]
    exact List.mem_map_of_mem _ hkv
  have hdump : model_dump S inst false
      = inst.primary ++ [("generation_config",
          Value.vmap (unstructure_generation S.gen_fields
            inst.generation_config))] := by
    rw [model_dump, if_pos rfl, unstructure_llmconfig, dict_set,
      if_neg (by rw [hkeysP]; exact hngc)]
  have hgetd : vget (model_dump S inst false) "generation_config"
      = some (Value.vmap (unstructure_generation S.gen_fields
          inst.generation_config)) := by
    rw [hdump, vget_append,
      vget_eq_none_of_not_mem (show ("generation_config" : String)
        ∉ vkeys inst.primary by rw [hkeysP]; exact hngc)]
    rfl
  have hcls : structure_cls_attrs S (model_dump S inst false)
      = inst.primary := by
    rw [structure_cls_attrs, hdump, List.filter_append]
    have h1 : inst.primary.filter
        (fun kv => decide (kv.1 ∈ S.openllm_attrs)) = inst.primary :=
      List.filter_eq_self.mpr (fun kv hkv => by
        simp [hopenP, hmemP kv hkv])
    have h2 : List.filter (fun kv => decide (kv.1 ∈ S.openllm_attrs))
        [("generation_config", Value.vmap (unstructure_generation
          S.gen_fields inst.generation_config))] = [] := by
      simp [hopenP, hngc]
    rw [h1, h2, List.append_nil]
  have hpop : structure_pop (model_dump S inst false) = inst.primary := by
    rw [structure_pop, hdump, List.filter_append]
    have h1 : inst.primary.filter
        (fun kv => !(decide (kv.1 = "generation_config"))) = inst.primary :=
      List.filter_eq_self.mpr (fun kv hkv => by
        simp
        intro hceq
        exact hngc (hceq ▸ hmemP kv hkv))
    have h2 : List.filter (fun kv => !(decide (kv.1 = "generation_config")))
        [("generation_config", Value.vmap (unstructure_generation
          S.gen_fields inst.generation_config))] = [] := by
      simp
    rw [h1, h2, List.append_nil]
  have hX : (structure_pop (model_dump S inst false)).filter
      (fun kv => decide (kv.1 ∈ gen_names S)) = [] := by
    rw [hpop, List.filter_eq_nil_iff]
    intro kv hkv
    simp
    exact hdisj _ (hmemP kv hkv)
  have hgc : structure_gc_explicit S
      (unstructure_generation S.gen_fields inst.generation_config)
      (model_dump S inst false)
      = unstructure_generation S.gen_fields inst.generation_config := by
    rw [structure_gc_explicit, hX, merge_entries]
  have hGMkeys : ∀ k, k ∈ vkeys (unstructure_generation S.gen_fields
      inst.generation_config) → k ∈ gen_names S := by
    intro k hk
    exact mem_vkeys_unstructure hk
  have hrest : (structure_pop (model_dump S inst false)).filter (fun kv =>
      !(decide (kv.1 ∈ vkeys inst.primary
          ++ vkeys (unstructure_generation S.gen_fields
            inst.generation_config)))) = [] := by
    rw [hpop, List.filter_eq_nil_iff]
    intro kv hkv
    simp [List.mem_append]
    intro h
    exact absurd (List.mem_map_of_mem Prod.fst hkv) h
  have hstruct : structure_llm_config S (Value.vmap (model_dump S inst false))
      = llmconfig_init S
          (some (unstructure_generation S.gen_fields inst.generation_config))
          (some []) inst.primary := by
    rw [structure_explicit_eq S (model_dump S inst false) _ hgetd, hgc, hcls,
      hrest]
  have hfil0 : inst.primary.filter (fun kv =>
      !(decide (kv.1 ∈ S.accepted_keys))) = [] := by
    rw [List.filter_eq_nil_iff]
    intro kv hkv
    simp
    exact haccP _ (hmemP kv hkv)
  have hextras : init_extras S (some []) inst.primary = [] := by
    simp [init_extras, hfil0, merge_entries]
  have ha1 : init_attrs1 S (some []) inst.primary
      = inst.primary.filter (fun kv => !kv.2.is_none) := by
    rw [init_attrs1, hextras]
    apply List.filter_congr
    intro kv _
    simp [vkeys]
  have hgk : init_generation_keys S (some []) inst.primary = [] := by
    rw [init_generation_keys, ha1, List.filter_eq_nil_iff]
    intro k hk
    simp
    apply hdisj
    rw [← hkeysP]
    exact (vkeys_filter_sublist inst.primary _).subset hk
  have ha2 : init_attrs2_explicit S (some []) inst.primary
      = inst.primary.filter (fun kv => !kv.2.is_none) := by
    rw [init_attrs2_explicit, ha1, hgk]
    apply List.filter_eq_self.mpr
    intro kv _
    simp
  have ha3 : (init_attrs2_explicit S (some []) inst.primary).filter (fun kv =>
      !(decide (kv.1 ∈ vkeys (unstructure_generation S.gen_fields
        inst.generation_config))))
      = inst.primary.filter (fun kv => !kv.2.is_none) := by
    rw [ha2]
    apply List.filter_eq_self.mpr
    intro kv hkv
    simp
    intro hmem
    exact hdisj _ (hmemP kv (List.mem_of_mem_filter hkv)) (hGMkeys _ hmem)
  have hgenok : init_generation S.gen_fields
      (unstructure_generation S.gen_fields inst.generation_config)
      = Except.ok (S.gen_fields.map (fun f =>
          (f.name, (vget (unstructure_generation S.gen_fields
            inst.generation_config) f.name).getD f.default))) := by
    apply init_generation_ok_of
    · intro kv hkv
      have h1 : kv.1 ∈ S.gen_fields.map GenField.name :=
        mem_vkeys_unstructure (List.mem_map_of_mem _ hkv)
      rcases List.mem_map.mp h1 with ⟨f, hf, hname⟩
      exact ⟨f, hf, hname⟩
    · exact hgnn
  have hprimok : attrs_init S.attrs
      (inst.primary.filter (fun kv => !kv.2.is_none))
      = Except.ok (S.attrs.map (fun f =>
          (f.name, dantic_convert f.ty
            ((if f.init then
                vget (inst.primary.filter (fun kv => !kv.2.is_none)) f.name
              else none).getD f.default)))) := by
    apply attrs_init_ok_of
    · intro kv hkv
      have h1 : kv.1 ∈ primary_names S :=
        hmemP kv (List.mem_of_mem_filter hkv)
      rcases List.mem_map.mp h1 with ⟨f, hf, hname⟩
      exact ⟨f, hf, hname, hSinit f hf⟩
    · exact hann
  refine ⟨⟨[], S.gen_fields.map (fun f =>
      (f.name, (vget (unstructure_generation S.gen_fields
        inst.generation_config) f.name).getD f.default)),
      S.attrs.map (fun f =>
        (f.name, dantic_convert f.ty
          ((if f.init then
              vget (inst.primary.filter (fun kv => !kv.2.is_none)) f.name
            else none).getD f.default))), []⟩, ?_, ?_, rfl, ?_⟩
  · rw [hstruct]
    simp only [llmconfig_init, hgenok, ha3, hprimok, Except.bind, hextras, hgk]
  · conv_rhs => rw [hprim_eq]
    apply List.map_congr_left
    intro f hf
    simp only [hSinit f hf, if_true]
    have hivP : vget inst.primary f.name
        = some (dantic_convert f.ty
            ((if f.init then
                vget ((init_attrs1 S none m).filter (fun kv =>
                  !(decide (kv.1 ∈ vkeys (init_gc_implicit S none m)))))
                  f.name
              else none).getD f.default)) := by
      rw [hprim_eq]
      exact vget_map_of_mem S.attrs FieldSpec.name _ f hf hndP
    simp only [hSinit f hf, if_true] at hivP
    cases hnv : (dantic_convert f.ty
        ((vget ((init_attrs1 S none m).filter (fun kv =>
          !(decide (kv.1 ∈ vkeys (init_gc_implicit S none m))))) f.name).getD
          f.default)).is_none with
    | false =>
        have hkeep : vget (inst.primary.filter (fun kv => !kv.2.is_none))
            f.name = some (dantic_convert f.ty
              ((vget ((init_attrs1 S none m).filter (fun kv =>
                !(decide (kv.1 ∈ vkeys (init_gc_implicit S none m))))) f.name).getD
                f.default)) :=
          vget_filter_some hivP (by simp [hnv])
        rw [hkeep]
        simp only [Option.getD_some]
        rw [dantic_convert_idem]
    | true =>
        have hdropped : vget (inst.primary.filter (fun kv => !kv.2.is_none))
            f.name = none := by
          apply vget_filter_some_dropped _ hivP
          · simp [hnv]
          · rw [hkeysP]
            exact hndP
        rw [hdropped]
        simp only [Option.getD_none]
        cases hA3 : vget ((init_attrs1 S none m).filter (fun kv =>
            !(decide (kv.1 ∈ vkeys (init_gc_implicit S none m))))) f.name with
        | none =>
            rw [hA3] at hnv
            simp only [Option.getD_none] at hnv ⊢
        | some w =>
            have hw : w.is_none = false := by
              have hmem := vget_mem hA3
              have hmem2 := List.mem_of_mem_filter hmem
              rw [init_attrs1] at hmem2
              have := (List.mem_filter.mp hmem2).2
              simp at this
              exact this.2
            rw [hA3] at hnv
            simp only [Option.getD_some] at hnv
            exact absurd hnv (by simp [@dantic_convert_not_none f.ty w hw])
  · intro f hf
    have hval : vget (S.gen_fields.map (fun f =>
        (f.name, (vget (unstructure_generation S.gen_fields
          inst.generation_config) f.name).getD f.default))) f.name
        = some ((vget (unstructure_generation S.gen_fields
            inst.generation_config) f.name).getD f.default) :=
      vget_map_of_mem S.gen_fields GenField.name _ f hf hndG
    rw [hval]
    cases homit : (f.default.is_none || f.default.is_nothing) with
    | true =>
        have hnotin : f.name ∉ vkeys (unstructure_generation S.gen_fields
            inst.generation_config) := by
          rw [unstructure_generation, vkeys_map_name]
          intro hmem
          rcases List.mem_map.mp hmem with ⟨f2, hf2, hname⟩
          have hf2g := List.mem_of_mem_filter hf2
          have heqf : f2 = f :=
            List.inj_on_of_nodup_map hndG hf2g hf hname
          subst heqf
          have := (List.mem_filter.mp hf2).2
          rw [homit] at this
          cases this
        rw [vget_eq_none_of_not_mem hnotin]
        simp
    | false =>
        have hfin : f ∈ S.gen_fields.filter (fun f =>
            !(f.default.is_none || f.default.is_nothing)) :=
          List.mem_filter.mpr ⟨hf, by simp [homit]⟩
        have hndF : ((S.gen_fields.filter (fun f =>
            !(f.default.is_none || f.default.is_nothing))).map
              GenField.name).Nodup :=
          (List.Sublist.map GenField.name
            (List.filter_sublist S.gen_fields)).nodup hndG
        have hGMval : vget (unstructure_generation S.gen_fields
            inst.generation_config) f.name
            = some ((vget inst.generation_config f.name).getD f.default) := by
          rw [unstructure_generation]
          exact vget_map_of_mem _ GenField.name _ f hfin hndF
        have higen : vget inst.generation_config f.name
            = some ((vget (init_gc_implicit S none m) f.name).getD
                f.default) := by
          rw [init_generation_ok hgeni]
          exact vget_map_of_mem S.gen_fields GenField.name _ f hf hndG
        rw [hGMval, higen]
        simp

/-- Counterexample to C7: round-tripping an instance with extras
`{foo: "bar"}` through `model_dump`/`structure` loses the extras — the
unstructure hook covers only the attrs fields, so the round-tripped
instance has empty extras. -/
theorem model_dump_roundtrip_counterexample :
    (structure_llm_config example_schema
        (Value.vmap (model_dump example_schema c4_inst false))).map
      (fun inst => inst.openllm_extras)
      = Except.ok []
    ∧ c4_inst.openllm_extras = [("foo", Value.vstr "bar")]
    ∧ ([] : ValMap) ≠ [("foo", Value.vstr "bar")] := by
  have hget : vget (model_dump example_schema c4_inst false) "generation_config"
      = some (Value.vmap (unstructure_generation example_schema.gen_fields
          c4_inst.generation_config)) := rfl
  have hcls : structure_cls_attrs example_schema
      (model_dump example_schema c4_inst false)
      = [("max_tokens", Value.vint 50)] := rfl
  have hXv : (structure_pop (model_dump example_schema c4_inst false)).filter
      (fun kv => decide (kv.1 ∈ gen_names example_schema)) = [] := rfl
  have hgc : structure_gc_explicit example_schema
      (unstructure_generation example_schema.gen_fields
        c4_inst.generation_config)
      (model_dump example_schema c4_inst false)
      = unstructure_generation example_schema.gen_fields
          c4_inst.generation_config := by
    rw [structure_gc_explicit, hXv, merge_entries]
  have hrest : (structure_pop (model_dump example_schema c4_inst false)).filter
      (fun kv => !(decide (kv.1 ∈ vkeys [("max_tokens", Value.vint 50)]
        ++ vkeys (unstructure_generation example_schema.gen_fields
          c4_inst.generation_config)))) = [] := rfl
  have hg : init_generation example_schema.gen_fields
      (unstructure_generation example_schema.gen_fields
        c4_inst.generation_config)
      = Except.ok (example_schema.gen_fields.map (fun f =>
          (f.name, (vget (unstructure_generation example_schema.gen_fields
            c4_inst.generation_config) f.name).getD f.default))) := rfl
  have hex : init_extras example_schema (some [])
      [("max_tokens", Value.vint 50)] = [] := by
    simp +decide [init_extras, merge_entries]
  have ha2 : init_attrs2_explicit example_schema (some [])
      [("max_tokens", Value.vint 50)] = [("max_tokens", Value.vint 50)] := by
    simp +decide [init_attrs2_explicit, init_attrs1, hex,
      init_generation_keys, vkeys, Value.is_none, gen_names]
  have ha3 : ([("max_tokens", Value.vint 50)] : ValMap).filter
      (fun kv => !(decide (kv.1 ∈ vkeys (unstructure_generation
        example_schema.gen_fields c4_inst.generation_config))))
      = [("max_tokens", Value.vint 50)] := rfl
  have hgk : init_generation_keys example_schema (some [])
      [("max_tokens", Value.vint 50)] = [] := by
    simp +decide [init_generation_keys, init_attrs1, hex, vkeys,
      Value.is_none, gen_names]
  have hai : attrs_init example_schema.attrs [("max_tokens", Value.vint 50)]
      = Except.ok [("max_tokens", Value.vint 50)] := rfl
  refine ⟨?_, rfl, by simp⟩
  rw [structure_explicit_eq example_schema
    (model_dump example_schema c4_inst false) _ hget, hgc, hcls, hrest]
  simp only [llmconfig_init, hg, ha2, ha3, hai, Except.bind, hex, hgk]
  simp [Except.map]

/-- Witness for C7 (amended): round-tripping the instance built from
`{temperature: 0.2, foo: "bar"}` on the `Example` schema preserves the
primary fields, loses the extras, and preserves exactly the sub-schema
fields with non-None defaults. -/
theorem model_dump_roundtrip_witness :
    ∃ j, structure_llm_config example_schema
        (Value.vmap (model_dump example_schema c4_inst false))
        = Except.ok j
      ∧ j.primary = c4_inst.primary
      ∧ j.openllm_extras = []
      ∧ ∀ f ∈ example_schema.gen_fields,
          vget j.generation_config f.name
            = if (f.default.is_none || f.default.is_nothing) = true
              then some f.default
              else vget c4_inst.generation_config f.name :=
  model_dump_roundtrip example_input env50 example_schema rfl rfl
    (by decide) (by decide) (by decide) (by decide) (by decide) (by decide)
    (by decide)
    [("temperature", Value.vfloat 1 5), ("foo", Value.vstr "bar")]
    c4_inst c4_init

end OpenLLM
